import Mathlib

/-!
Verification of the msi-ec embedded-controller driver core (msi-ec.c):
the hardware-profile catalog, the firmware-to-profile configuration
resolver, the sentinel-gated attribute visibility decision, the
generic attribute codecs (charge thresholds, basic fan-speed rescale,
mode tables, single-bit toggles) and the serialized read-modify-write
register primitives.

Machine bytes are modelled as `Nat` with explicit `% 256` where the C
code performs unsigned 8-bit wrap-around; fallible operations return
`Except Int` carrying the negated errno exactly where the C returns a
negative error code.
-/

namespace MsiEc

/-- Modelled from the spec: the header `ec_memory_configuration.h`, which defines
the reserved constants `MSI_EC_ADDR_UNSUPP` and `MSI_EC_ADDR_UNKNOWN`, is not part
of the given sources.  The spec describes a register address as an 8-bit value or
one of two distinct sentinels: `Unsupported` (feature absent on this model) and
`Unknown` (feature believed present, real address not yet determined).  -/
inductive Addr where
  | addr (v : Nat)
  | unknown
  | unsupp
  deriving DecidableEq, Repr

/-- `struct msi_ec_charge_control_conf`. -/
structure ChargeControl where
  address : Addr
  offset_start : Nat
  offset_end : Nat
  range_min : Nat
  range_max : Nat
  deriving DecidableEq, Repr

/-- `struct msi_ec_webcam_conf`. -/
structure Webcam where
  address : Addr
  block_address : Addr
  bit : Nat
  deriving DecidableEq, Repr

/-- `struct msi_ec_fn_win_swap_conf`. -/
structure FnWinSwap where
  address : Addr
  bit : Nat
  invert : Bool
  deriving DecidableEq, Repr

/-- `struct msi_ec_cooler_boost_conf`. -/
structure CoolerBoost where
  address : Addr
  bit : Nat
  deriving DecidableEq, Repr

/-- `struct msi_ec_shift_mode_conf`: a `MSI_EC_MODE_NULL`-terminated table of
(name, raw byte) pairs, kept in declaration order. -/
structure ShiftMode where
  address : Addr
  modes : List (String × Nat)
  deriving DecidableEq, Repr

/-- `struct msi_ec_super_battery_conf`.  A missing `.mask` initializer in the C
table zero-initializes the field. -/
structure SuperBattery where
  address : Addr
  mask : Nat
  deriving DecidableEq, Repr

/-- `struct msi_ec_fan_mode_conf`. -/
structure FanMode where
  address : Addr
  modes : List (String × Nat)
  deriving DecidableEq, Repr

/-- `struct msi_ec_cpu_conf`.  Missing numeric initializers are zero. -/
structure CpuConf where
  rt_temp_address : Addr
  rt_fan_speed_address : Addr
  rt_fan_speed_base_min : Nat
  rt_fan_speed_base_max : Nat
  bs_fan_speed_address : Addr
  bs_fan_speed_base_min : Nat
  bs_fan_speed_base_max : Nat
  deriving DecidableEq, Repr

/-- `struct msi_ec_gpu_conf`. -/
structure GpuConf where
  rt_temp_address : Addr
  rt_fan_speed_address : Addr
  deriving DecidableEq, Repr

/-- `struct msi_ec_conf`: one hardware profile (the fields the verified core
reads; the led/keyboard-backlight tables are not consulted by any claim). -/
structure Conf where
  allowed_fw : List String
  charge_control : ChargeControl
  webcam : Webcam
  fn_win_swap : FnWinSwap
  cooler_boost : CoolerBoost
  shift_mode : ShiftMode
  super_battery : SuperBattery
  fan_mode : FanMode
  cpu : CpuConf
  gpu : GpuConf
  deriving DecidableEq, Repr

def CONF0 : Conf :=
  { allowed_fw := ["14C1EMS1.012", "14C1EMS1.101", "14C1EMS1.102"],
    charge_control :=
      { address := Addr.addr 0xef, offset_start := 0x8a,
        offset_end := 0x80, range_min := 0x8a,
        range_max := 0xe4 },
    webcam :=
      { address := Addr.addr 0x2e, block_address := Addr.addr 0x2f,
        bit := 0x1 },
    fn_win_swap := { address := Addr.addr 0xbf, bit := 0x4, invert := false },
    cooler_boost := { address := Addr.addr 0x98, bit := 0x7 },
    shift_mode := { address := Addr.addr 0xf2, modes := [("eco", 0xc2), ("comfort", 0xc1), ("sport", 0xc0)] },
    super_battery := { address := Addr.unknown, mask := 0 },
    fan_mode := { address := Addr.addr 0xf4, modes := [("auto", 0xd), ("silent", 0x1d), ("basic", 0x4d), ("advanced", 0x8d)] },
    cpu :=
      { rt_temp_address := Addr.addr 0x68, rt_fan_speed_address := Addr.addr 0x71,
        rt_fan_speed_base_min := 0x19, rt_fan_speed_base_max := 0x37,
        bs_fan_speed_address := Addr.addr 0x89,
        bs_fan_speed_base_min := 0x0, bs_fan_speed_base_max := 0xf },
    gpu := { rt_temp_address := Addr.addr 0x80, rt_fan_speed_address := Addr.addr 0x89 } }

def CONF1 : Conf :=
  { allowed_fw := ["17F2EMS1.103", "17F2EMS1.104", "17F2EMS1.106", "17F2EMS1.107"],
    charge_control :=
      { address := Addr.addr 0xef, offset_start := 0x8a,
        offset_end := 0x80, range_min := 0x8a,
        range_max := 0xe4 },
    webcam :=
      { address := Addr.addr 0x2e, block_address := Addr.addr 0x2f,
        bit := 0x1 },
    fn_win_swap := { address := Addr.addr 0xbf, bit := 0x4, invert := false },
    cooler_boost := { address := Addr.addr 0x98, bit := 0x7 },
    shift_mode := { address := Addr.addr 0xf2, modes := [("eco", 0xc2), ("comfort", 0xc1), ("sport", 0xc0), ("turbo", 0xc4)] },
    super_battery := { address := Addr.unknown, mask := 0 },
    fan_mode := { address := Addr.addr 0xf4, modes := [("auto", 0xd), ("basic", 0x4d), ("advanced", 0x8d)] },
    cpu :=
      { rt_temp_address := Addr.addr 0x68, rt_fan_speed_address := Addr.addr 0x71,
        rt_fan_speed_base_min := 0x19, rt_fan_speed_base_max := 0x37,
        bs_fan_speed_address := Addr.addr 0x89,
        bs_fan_speed_base_min := 0x0, bs_fan_speed_base_max := 0xf },
    gpu := { rt_temp_address := Addr.addr 0x80, rt_fan_speed_address := Addr.addr 0x89 } }

def CONF2 : Conf :=
  { allowed_fw := ["1552EMS1.115", "1552EMS1.118", "1552EMS1.119", "1552EMS1.120"],
    charge_control :=
      { address := Addr.addr 0xd7, offset_start := 0x8a,
        offset_end := 0x80, range_min := 0x8a,
        range_max := 0xe4 },
    webcam :=
      { address := Addr.addr 0x2e, block_address := Addr.addr 0x2f,
        bit := 0x1 },
    fn_win_swap := { address := Addr.addr 0xe8, bit := 0x4, invert := false },
    cooler_boost := { address := Addr.addr 0x98, bit := 0x7 },
    shift_mode := { address := Addr.addr 0xd2, modes := [("eco", 0xc2), ("comfort", 0xc1), ("sport", 0xc0)] },
    super_battery := { address := Addr.addr 0xeb, mask := 0xf },
    fan_mode := { address := Addr.addr 0xd4, modes := [("auto", 0xd), ("silent", 0x1d), ("basic", 0x4d), ("advanced", 0x8d)] },
    cpu :=
      { rt_temp_address := Addr.addr 0x68, rt_fan_speed_address := Addr.addr 0x71,
        rt_fan_speed_base_min := 0x19, rt_fan_speed_base_max := 0x37,
        bs_fan_speed_address := Addr.addr 0x89,
        bs_fan_speed_base_min := 0x0, bs_fan_speed_base_max := 0xf },
    gpu := { rt_temp_address := Addr.addr 0x80, rt_fan_speed_address := Addr.addr 0x89 } }

def CONF3 : Conf :=
  { allowed_fw := ["1592EMS1.111"],
    charge_control :=
      { address := Addr.addr 0xd7, offset_start := 0x8a,
        offset_end := 0x80, range_min := 0x8a,
        range_max := 0xe4 },
    webcam :=
      { address := Addr.addr 0x2e, block_address := Addr.addr 0x2f,
        bit := 0x1 },
    fn_win_swap := { address := Addr.addr 0xe8, bit := 0x4, invert := false },
    cooler_boost := { address := Addr.addr 0x98, bit := 0x7 },
    shift_mode := { address := Addr.addr 0xd2, modes := [("eco", 0xc2), ("comfort", 0xc1), ("sport", 0xc0)] },
    super_battery := { address := Addr.addr 0xeb, mask := 0xf },
    fan_mode := { address := Addr.addr 0xd4, modes := [("auto", 0xd), ("silent", 0x1d), ("basic", 0x4d), ("advanced", 0x8d)] },
    cpu :=
      { rt_temp_address := Addr.addr 0x68, rt_fan_speed_address := Addr.addr 0xc9,
        rt_fan_speed_base_min := 0x19, rt_fan_speed_base_max := 0x37,
        bs_fan_speed_address := Addr.addr 0x89,
        bs_fan_speed_base_min := 0x0, bs_fan_speed_base_max := 0xf },
    gpu := { rt_temp_address := Addr.addr 0x80, rt_fan_speed_address := Addr.addr 0x89 } }

def CONF4 : Conf :=
  { allowed_fw := ["16V4EMS1.114"],
    charge_control :=
      { address := Addr.addr 0xd7, offset_start := 0x8a,
        offset_end := 0x80, range_min := 0x8a,
        range_max := 0xe4 },
    webcam :=
      { address := Addr.addr 0x2e, block_address := Addr.addr 0x2f,
        bit := 0x1 },
    fn_win_swap := { address := Addr.unknown, bit := 0x4, invert := false },
    cooler_boost := { address := Addr.addr 0x98, bit := 0x7 },
    shift_mode := { address := Addr.addr 0xd2, modes := [("eco", 0xc2), ("comfort", 0xc1), ("sport", 0xc0)] },
    super_battery := { address := Addr.unknown, mask := 0xf },
    fan_mode := { address := Addr.addr 0xd4, modes := [("auto", 0xd), ("silent", 0x1d), ("advanced", 0x8d)] },
    cpu :=
      { rt_temp_address := Addr.addr 0x68, rt_fan_speed_address := Addr.addr 0x71,
        rt_fan_speed_base_min := 0x19, rt_fan_speed_base_max := 0x37,
        bs_fan_speed_address := Addr.unknown,
        bs_fan_speed_base_min := 0x0, bs_fan_speed_base_max := 0xf },
    gpu := { rt_temp_address := Addr.addr 0x80, rt_fan_speed_address := Addr.unknown } }

def CONF5 : Conf :=
  { allowed_fw := ["158LEMS1.103", "158LEMS1.105", "158LEMS1.106"],
    charge_control :=
      { address := Addr.addr 0xef, offset_start := 0x8a,
        offset_end := 0x80, range_min := 0x8a,
        range_max := 0xe4 },
    webcam :=
      { address := Addr.addr 0x2e, block_address := Addr.addr 0x2f,
        bit := 0x1 },
    fn_win_swap := { address := Addr.addr 0xbf, bit := 0x4, invert := true },
    cooler_boost := { address := Addr.addr 0x98, bit := 0x7 },
    shift_mode := { address := Addr.addr 0xf2, modes := [("eco", 0xc2), ("comfort", 0xc1), ("turbo", 0xc4)] },
    super_battery := { address := Addr.unknown, mask := 0xf },
    fan_mode := { address := Addr.addr 0xf4, modes := [("auto", 0xd), ("silent", 0x1d), ("advanced", 0x8d)] },
    cpu :=
      { rt_temp_address := Addr.addr 0x68, rt_fan_speed_address := Addr.addr 0x71,
        rt_fan_speed_base_min := 0x19, rt_fan_speed_base_max := 0x37,
        bs_fan_speed_address := Addr.unsupp,
        bs_fan_speed_base_min := 0x0, bs_fan_speed_base_max := 0xf },
    gpu := { rt_temp_address := Addr.unknown, rt_fan_speed_address := Addr.unknown } }

def CONF6 : Conf :=
  { allowed_fw := ["1542EMS1.102", "1542EMS1.104"],
    charge_control :=
      { address := Addr.addr 0xef, offset_start := 0x8a,
        offset_end := 0x80, range_min := 0x8a,
        range_max := 0xe4 },
    webcam :=
      { address := Addr.addr 0x2e, block_address := Addr.unsupp,
        bit := 0x1 },
    fn_win_swap := { address := Addr.addr 0xbf, bit := 0x4, invert := true },
    cooler_boost := { address := Addr.addr 0x98, bit := 0x7 },
    shift_mode := { address := Addr.addr 0xf2, modes := [("eco", 0xc2), ("comfort", 0xc1), ("sport", 0xc0), ("turbo", 0xc4)] },
    super_battery := { address := Addr.addr 0xd5, mask := 0xf },
    fan_mode := { address := Addr.addr 0xf4, modes := [("auto", 0xd), ("silent", 0x1d), ("advanced", 0x8d)] },
    cpu :=
      { rt_temp_address := Addr.addr 0x68, rt_fan_speed_address := Addr.addr 0xc9,
        rt_fan_speed_base_min := 0x19, rt_fan_speed_base_max := 0x37,
        bs_fan_speed_address := Addr.unsupp,
        bs_fan_speed_base_min := 0x0, bs_fan_speed_base_max := 0xf },
    gpu := { rt_temp_address := Addr.addr 0x80, rt_fan_speed_address := Addr.unknown } }

def CONF7 : Conf :=
  { allowed_fw := ["17FKEMS1.108", "17FKEMS1.109", "17FKEMS1.10A"],
    charge_control :=
      { address := Addr.addr 0xef, offset_start := 0x8a,
        offset_end := 0x80, range_min := 0x8a,
        range_max := 0xe4 },
    webcam :=
      { address := Addr.addr 0x2e, block_address := Addr.unsupp,
        bit := 0x1 },
    fn_win_swap := { address := Addr.addr 0xbf, bit := 0x4, invert := false },
    cooler_boost := { address := Addr.addr 0x98, bit := 0x7 },
    shift_mode := { address := Addr.addr 0xf2, modes := [("eco", 0xc2), ("comfort", 0xc1), ("sport", 0xc0), ("turbo", 0xc4)] },
    super_battery := { address := Addr.unknown, mask := 0xf },
    fan_mode := { address := Addr.addr 0xf4, modes := [("auto", 0xd), ("silent", 0x1d), ("advanced", 0x8d)] },
    cpu :=
      { rt_temp_address := Addr.addr 0x68, rt_fan_speed_address := Addr.addr 0xc9,
        rt_fan_speed_base_min := 0x19, rt_fan_speed_base_max := 0x37,
        bs_fan_speed_address := Addr.unsupp,
        bs_fan_speed_base_min := 0x0, bs_fan_speed_base_max := 0xf },
    gpu := { rt_temp_address := Addr.unknown, rt_fan_speed_address := Addr.unknown } }

def CONF8 : Conf :=
  { allowed_fw := ["14F1EMS1.114", "14F1EMS1.115", "14F1EMS1.116", "14F1EMS1.117", "14F1EMS1.118", "14F1EMS1.119", "14F1EMS1.120"],
    charge_control :=
      { address := Addr.addr 0xd7, offset_start := 0x8a,
        offset_end := 0x80, range_min := 0x8a,
        range_max := 0xe4 },
    webcam :=
      { address := Addr.addr 0x2e, block_address := Addr.addr 0x2f,
        bit := 0x1 },
    fn_win_swap := { address := Addr.addr 0xe8, bit := 0x4, invert := false },
    cooler_boost := { address := Addr.addr 0x98, bit := 0x7 },
    shift_mode := { address := Addr.addr 0xd2, modes := [("eco", 0xc2), ("comfort", 0xc1), ("sport", 0xc0)] },
    super_battery := { address := Addr.addr 0xeb, mask := 0xf },
    fan_mode := { address := Addr.addr 0xd4, modes := [("auto", 0xd), ("silent", 0x1d), ("advanced", 0x8d)] },
    cpu :=
      { rt_temp_address := Addr.addr 0x68, rt_fan_speed_address := Addr.addr 0x71,
        rt_fan_speed_base_min := 0x19, rt_fan_speed_base_max := 0x37,
        bs_fan_speed_address := Addr.unsupp,
        bs_fan_speed_base_min := 0x0, bs_fan_speed_base_max := 0xf },
    gpu := { rt_temp_address := Addr.unknown, rt_fan_speed_address := Addr.addr 0x89 } }

def CONF9 : Conf :=
  { allowed_fw := ["14JKEMS1.104"],
    charge_control :=
      { address := Addr.addr 0xef, offset_start := 0x8a,
        offset_end := 0x80, range_min := 0x8a,
        range_max := 0xe4 },
    webcam :=
      { address := Addr.addr 0x2e, block_address := Addr.addr 0x2f,
        bit := 0x1 },
    fn_win_swap := { address := Addr.addr 0xbf, bit := 0x4, invert := false },
    cooler_boost := { address := Addr.addr 0x98, bit := 0x7 },
    shift_mode := { address := Addr.addr 0xf2, modes := [("eco", 0xc2), ("comfort", 0xc1), ("sport", 0xc0)] },
    super_battery := { address := Addr.unsupp, mask := 0xf },
    fan_mode := { address := Addr.addr 0xf4, modes := [("auto", 0xd), ("silent", 0x1d), ("advanced", 0x8d)] },
    cpu :=
      { rt_temp_address := Addr.addr 0x68, rt_fan_speed_address := Addr.addr 0x71,
        rt_fan_speed_base_min := 0x0, rt_fan_speed_base_max := 0x96,
        bs_fan_speed_address := Addr.unsupp,
        bs_fan_speed_base_min := 0x0, bs_fan_speed_base_max := 0xf },
    gpu := { rt_temp_address := Addr.unsupp, rt_fan_speed_address := Addr.unsupp } }

def CONF10 : Conf :=
  { allowed_fw := ["1582EMS1.107"],
    charge_control :=
      { address := Addr.addr 0xd7, offset_start := 0x8a,
        offset_end := 0x80, range_min := 0x8a,
        range_max := 0xe4 },
    webcam :=
      { address := Addr.addr 0x2e, block_address := Addr.addr 0x2f,
        bit := 0x1 },
    fn_win_swap := { address := Addr.unsupp, bit := 0x4, invert := false },
    cooler_boost := { address := Addr.addr 0x98, bit := 0x7 },
    shift_mode := { address := Addr.addr 0xd2, modes := [("eco", 0xc2), ("comfort", 0xc1), ("sport", 0xc0), ("turbo", 0xc4)] },
    super_battery := { address := Addr.addr 0xe5, mask := 0xf },
    fan_mode := { address := Addr.addr 0xd4, modes := [("auto", 0xd), ("silent", 0x1d), ("advanced", 0x8d)] },
    cpu :=
      { rt_temp_address := Addr.addr 0x68, rt_fan_speed_address := Addr.addr 0x71,
        rt_fan_speed_base_min := 0x19, rt_fan_speed_base_max := 0x37,
        bs_fan_speed_address := Addr.unknown,
        bs_fan_speed_base_min := 0x0, bs_fan_speed_base_max := 0xf },
    gpu := { rt_temp_address := Addr.addr 0x80, rt_fan_speed_address := Addr.addr 0x89 } }

def CONF11 : Conf :=
  { allowed_fw := ["16S6EMS1.111"],
    charge_control :=
      { address := Addr.addr 0xd7, offset_start := 0x8a,
        offset_end := 0x80, range_min := 0x8a,
        range_max := 0xe4 },
    webcam :=
      { address := Addr.addr 0x2e, block_address := Addr.unknown,
        bit := 0x1 },
    fn_win_swap := { address := Addr.addr 0xe8, bit := 0x4, invert := false },
    cooler_boost := { address := Addr.addr 0x98, bit := 0x7 },
    shift_mode := { address := Addr.addr 0xd2, modes := [("eco", 0xc2), ("comfort", 0xc1), ("sport", 0xc0)] },
    super_battery := { address := Addr.addr 0xeb, mask := 0xf },
    fan_mode := { address := Addr.addr 0xd4, modes := [("auto", 0xd), ("silent", 0x1d), ("advanced", 0x4d)] },
    cpu :=
      { rt_temp_address := Addr.addr 0x68, rt_fan_speed_address := Addr.unsupp,
        rt_fan_speed_base_min := 0, rt_fan_speed_base_max := 0,
        bs_fan_speed_address := Addr.unsupp,
        bs_fan_speed_base_min := 0, bs_fan_speed_base_max := 0 },
    gpu := { rt_temp_address := Addr.unsupp, rt_fan_speed_address := Addr.unsupp } }

def CONF12 : Conf :=
  { allowed_fw := ["16R6EMS1.104", "16R6EMS1.106", "16R6EMS1.107"],
    charge_control :=
      { address := Addr.addr 0xd7, offset_start := 0x8a,
        offset_end := 0x80, range_min := 0x8a,
        range_max := 0xe4 },
    webcam :=
      { address := Addr.addr 0x2e, block_address := Addr.addr 0x2f,
        bit := 0x1 },
    fn_win_swap := { address := Addr.addr 0xe8, bit := 0x4, invert := false },
    cooler_boost := { address := Addr.addr 0x98, bit := 0x7 },
    shift_mode := { address := Addr.addr 0xd2, modes := [("eco", 0xc2), ("comfort", 0xc1), ("sport", 0xc0), ("turbo", 0xc4)] },
    super_battery := { address := Addr.unsupp, mask := 0xf },
    fan_mode := { address := Addr.addr 0xd4, modes := [("auto", 0xd), ("silent", 0x1d), ("advanced", 0x8d)] },
    cpu :=
      { rt_temp_address := Addr.addr 0x68, rt_fan_speed_address := Addr.addr 0x71,
        rt_fan_speed_base_min := 0x19, rt_fan_speed_base_max := 0x37,
        bs_fan_speed_address := Addr.unsupp,
        bs_fan_speed_base_min := 0x0, bs_fan_speed_base_max := 0xf },
    gpu := { rt_temp_address := Addr.unsupp, rt_fan_speed_address := Addr.addr 0x89 } }

def CONF13 : Conf :=
  { allowed_fw := ["1594EMS1.109"],
    charge_control :=
      { address := Addr.addr 0xd7, offset_start := 0x8a,
        offset_end := 0x80, range_min := 0x8a,
        range_max := 0xe4 },
    webcam :=
      { address := Addr.addr 0x2e, block_address := Addr.addr 0x2f,
        bit := 0x1 },
    fn_win_swap := { address := Addr.addr 0xe8, bit := 0x4, invert := false },
    cooler_boost := { address := Addr.addr 0x98, bit := 0x7 },
    shift_mode := { address := Addr.addr 0xd2, modes := [("eco", 0xc2), ("comfort", 0xc1), ("turbo", 0xc4)] },
    super_battery := { address := Addr.unsupp, mask := 0xf },
    fan_mode := { address := Addr.addr 0xd4, modes := [("auto", 0xd), ("silent", 0x1d), ("advanced", 0x8d)] },
    cpu :=
      { rt_temp_address := Addr.addr 0x68, rt_fan_speed_address := Addr.addr 0x71,
        rt_fan_speed_base_min := 0x0, rt_fan_speed_base_max := 0x96,
        bs_fan_speed_address := Addr.unsupp,
        bs_fan_speed_base_min := 0x0, bs_fan_speed_base_max := 0xf },
    gpu := { rt_temp_address := Addr.addr 0x80, rt_fan_speed_address := Addr.addr 0x89 } }

def CONF14 : Conf :=
  { allowed_fw := ["17L2EMS1.108"],
    charge_control :=
      { address := Addr.addr 0xd7, offset_start := 0x8a,
        offset_end := 0x80, range_min := 0x8a,
        range_max := 0xe4 },
    webcam :=
      { address := Addr.addr 0x2e, block_address := Addr.addr 0x2f,
        bit := 0x1 },
    fn_win_swap := { address := Addr.addr 0xe8, bit := 0x4, invert := true },
    cooler_boost := { address := Addr.addr 0x98, bit := 0x7 },
    shift_mode := { address := Addr.addr 0xd2, modes := [("eco", 0xc2), ("comfort", 0xc1), ("sport", 0xc0), ("turbo", 0xc4)] },
    super_battery := { address := Addr.unsupp, mask := 0xf },
    fan_mode := { address := Addr.addr 0xd4, modes := [("auto", 0xd), ("silent", 0x1d), ("advanced", 0x8d)] },
    cpu :=
      { rt_temp_address := Addr.addr 0x68, rt_fan_speed_address := Addr.addr 0xc9,
        rt_fan_speed_base_min := 0x0, rt_fan_speed_base_max := 0x96,
        bs_fan_speed_address := Addr.unsupp,
        bs_fan_speed_base_min := 0x0, bs_fan_speed_base_max := 0xf },
    gpu := { rt_temp_address := Addr.addr 0x80, rt_fan_speed_address := Addr.addr 0xcb } }

def CONF15 : Conf :=
  { allowed_fw := ["15CKEMS1.108"],
    charge_control :=
      { address := Addr.addr 0xef, offset_start := 0x8a,
        offset_end := 0x80, range_min := 0x8a,
        range_max := 0xe4 },
    webcam :=
      { address := Addr.addr 0x2e, block_address := Addr.addr 0x2f,
        bit := 0x1 },
    fn_win_swap := { address := Addr.addr 0xbf, bit := 0x4, invert := false },
    cooler_boost := { address := Addr.addr 0x98, bit := 0x7 },
    shift_mode := { address := Addr.addr 0xf2, modes := [("eco", 0xa5), ("comfort", 0xa1), ("turbo", 0xa0)] },
    super_battery := { address := Addr.unknown, mask := 0xf },
    fan_mode := { address := Addr.addr 0xf4, modes := [("auto", 0xd), ("silent", 0x1d), ("advanced", 0x8d)] },
    cpu :=
      { rt_temp_address := Addr.addr 0x68, rt_fan_speed_address := Addr.addr 0xc9,
        rt_fan_speed_base_min := 0x0, rt_fan_speed_base_max := 0x96,
        bs_fan_speed_address := Addr.addr 0xcd,
        bs_fan_speed_base_min := 0x0, bs_fan_speed_base_max := 0xf },
    gpu := { rt_temp_address := Addr.addr 0x80, rt_fan_speed_address := Addr.addr 0xcb } }

def CONF16 : Conf :=
  { allowed_fw := ["155LEMS1.105", "155LEMS1.106"],
    charge_control :=
      { address := Addr.addr 0xef, offset_start := 0x8a,
        offset_end := 0x80, range_min := 0x8a,
        range_max := 0xe4 },
    webcam :=
      { address := Addr.addr 0x2e, block_address := Addr.addr 0x2f,
        bit := 0x1 },
    fn_win_swap := { address := Addr.addr 0xbf, bit := 0x4, invert := false },
    cooler_boost := { address := Addr.addr 0x98, bit := 0x7 },
    shift_mode := { address := Addr.addr 0xf2, modes := [("eco", 0xc2), ("comfort", 0xc1), ("sport", 0xc0)] },
    super_battery := { address := Addr.unknown, mask := 0xf },
    fan_mode := { address := Addr.addr 0xf4, modes := [("auto", 0xd), ("silent", 0x1d), ("advanced", 0x8d)] },
    cpu :=
      { rt_temp_address := Addr.addr 0x68, rt_fan_speed_address := Addr.addr 0x71,
        rt_fan_speed_base_min := 0x19, rt_fan_speed_base_max := 0x37,
        bs_fan_speed_address := Addr.unsupp,
        bs_fan_speed_base_min := 0x0, bs_fan_speed_base_max := 0xf },
    gpu := { rt_temp_address := Addr.unknown, rt_fan_speed_address := Addr.unknown } }

def CONF17 : Conf :=
  { allowed_fw := ["15K1IMS1.110"],
    charge_control :=
      { address := Addr.addr 0xd7, offset_start := 0x8a,
        offset_end := 0x80, range_min := 0x8a,
        range_max := 0xe4 },
    webcam :=
      { address := Addr.addr 0x2e, block_address := Addr.addr 0x2f,
        bit := 0x1 },
    fn_win_swap := { address := Addr.addr 0xe8, bit := 0x4, invert := true },
    cooler_boost := { address := Addr.addr 0x98, bit := 0x7 },
    shift_mode := { address := Addr.addr 0xd2, modes := [("eco", 0xc2), ("comfort", 0xc1), ("turbo", 0xc4)] },
    super_battery := { address := Addr.addr 0xeb, mask := 0xf },
    fan_mode := { address := Addr.addr 0xd4, modes := [("auto", 0xd), ("silent", 0x1d), ("advanced", 0x8d)] },
    cpu :=
      { rt_temp_address := Addr.addr 0x68, rt_fan_speed_address := Addr.addr 0x71,
        rt_fan_speed_base_min := 0x0, rt_fan_speed_base_max := 0x96,
        bs_fan_speed_address := Addr.unsupp,
        bs_fan_speed_base_min := 0x0, bs_fan_speed_base_max := 0xf },
    gpu := { rt_temp_address := Addr.addr 0x80, rt_fan_speed_address := Addr.addr 0x89 } }

def CONF18 : Conf :=
  { allowed_fw := ["15HKEMS1.104"],
    charge_control :=
      { address := Addr.addr 0xef, offset_start := 0x8a,
        offset_end := 0x80, range_min := 0x8a,
        range_max := 0xe4 },
    webcam :=
      { address := Addr.addr 0x2e, block_address := Addr.addr 0x2f,
        bit := 0x1 },
    fn_win_swap := { address := Addr.addr 0xbf, bit := 0x4, invert := false },
    cooler_boost := { address := Addr.addr 0x98, bit := 0x7 },
    shift_mode := { address := Addr.addr 0xf2, modes := [("eco", 0xc2), ("comfort", 0xc1), ("sport", 0xc0)] },
    super_battery := { address := Addr.unsupp, mask := 0xf },
    fan_mode := { address := Addr.addr 0xf4, modes := [("auto", 0xd), ("silent", 0x1d), ("advanced", 0x8d)] },
    cpu :=
      { rt_temp_address := Addr.addr 0x68, rt_fan_speed_address := Addr.addr 0x71,
        rt_fan_speed_base_min := 0x0, rt_fan_speed_base_max := 0x96,
        bs_fan_speed_address := Addr.unsupp,
        bs_fan_speed_base_min := 0x0, bs_fan_speed_base_max := 0xf },
    gpu := { rt_temp_address := Addr.unsupp, rt_fan_speed_address := Addr.unsupp } }

def CONF19 : Conf :=
  { allowed_fw := ["1543EMS1.113"],
    charge_control :=
      { address := Addr.addr 0xd7, offset_start := 0x8a,
        offset_end := 0x80, range_min := 0x8a,
        range_max := 0xe4 },
    webcam :=
      { address := Addr.addr 0x2e, block_address := Addr.unsupp,
        bit := 0x1 },
    fn_win_swap := { address := Addr.addr 0xe8, bit := 0x4, invert := false },
    cooler_boost := { address := Addr.addr 0x98, bit := 0x7 },
    shift_mode := { address := Addr.addr 0xd2, modes := [("eco", 0xc2), ("comfort", 0xc1), ("sport", 0xc0), ("turbo", 0xc4)] },
    super_battery := { address := Addr.addr 0xeb, mask := 0xf },
    fan_mode := { address := Addr.addr 0xd4, modes := [("auto", 0xd), ("silent", 0x1d), ("advanced", 0x8d)] },
    cpu :=
      { rt_temp_address := Addr.addr 0x68, rt_fan_speed_address := Addr.addr 0xc9,
        rt_fan_speed_base_min := 0x19, rt_fan_speed_base_max := 0x96,
        bs_fan_speed_address := Addr.unknown,
        bs_fan_speed_base_min := 0x0, bs_fan_speed_base_max := 0xf },
    gpu := { rt_temp_address := Addr.addr 0x80, rt_fan_speed_address := Addr.addr 0x89 } }

def CONF20 : Conf :=
  { allowed_fw := ["1581EMS1.107"],
    charge_control :=
      { address := Addr.addr 0xd7, offset_start := 0x8a,
        offset_end := 0x80, range_min := 0x8a,
        range_max := 0xe4 },
    webcam :=
      { address := Addr.addr 0x2e, block_address := Addr.addr 0x2f,
        bit := 0x1 },
    fn_win_swap := { address := Addr.addr 0xe8, bit := 0x4, invert := true },
    cooler_boost := { address := Addr.addr 0x98, bit := 0x7 },
    shift_mode := { address := Addr.addr 0xd2, modes := [("eco", 0xc2), ("comfort", 0xc1), ("sport", 0xc0), ("turbo", 0xc4)] },
    super_battery := { address := Addr.addr 0xeb, mask := 0xf },
    fan_mode := { address := Addr.addr 0xd4, modes := [("auto", 0xd), ("silent", 0x1d), ("advanced", 0x8d)] },
    cpu :=
      { rt_temp_address := Addr.addr 0x68, rt_fan_speed_address := Addr.addr 0xc9,
        rt_fan_speed_base_min := 0x0, rt_fan_speed_base_max := 0x96,
        bs_fan_speed_address := Addr.unsupp,
        bs_fan_speed_base_min := 0x0, bs_fan_speed_base_max := 0xf },
    gpu := { rt_temp_address := Addr.addr 0x80, rt_fan_speed_address := Addr.addr 0xcb } }

def CONF21 : Conf :=
  { allowed_fw := ["16R3EMS1.100", "16R3EMS1.102", "16R3EMS1.104", "16R4EMS2.102"],
    charge_control :=
      { address := Addr.addr 0xef, offset_start := 0x8a,
        offset_end := 0x80, range_min := 0xbc,
        range_max := 0xe4 },
    webcam :=
      { address := Addr.addr 0x2e, block_address := Addr.addr 0x2f,
        bit := 0x1 },
    fn_win_swap := { address := Addr.addr 0xbf, bit := 0x4, invert := true },
    cooler_boost := { address := Addr.addr 0x98, bit := 0x7 },
    shift_mode := { address := Addr.addr 0xf2, modes := [("eco", 0xc2), ("comfort", 0xc1), ("sport", 0xc0), ("turbo", 0xc4)] },
    super_battery := { address := Addr.unsupp, mask := 0xf },
    fan_mode := { address := Addr.addr 0xf4, modes := [("auto", 0xd), ("basic", 0x4d), ("advanced", 0x8d)] },
    cpu :=
      { rt_temp_address := Addr.addr 0x68, rt_fan_speed_address := Addr.addr 0x71,
        rt_fan_speed_base_min := 0x0, rt_fan_speed_base_max := 0x64,
        bs_fan_speed_address := Addr.unknown,
        bs_fan_speed_base_min := 0x0, bs_fan_speed_base_max := 0xf },
    gpu := { rt_temp_address := Addr.addr 0x80, rt_fan_speed_address := Addr.addr 0x89 } }

def CONF22 : Conf :=
  { allowed_fw := ["17LLEMS1.106"],
    charge_control :=
      { address := Addr.addr 0xef, offset_start := 0x8a,
        offset_end := 0x80, range_min := 0x8a,
        range_max := 0xe4 },
    webcam :=
      { address := Addr.addr 0x2e, block_address := Addr.addr 0x2f,
        bit := 0x1 },
    fn_win_swap := { address := Addr.addr 0xbf, bit := 0x4, invert := true },
    cooler_boost := { address := Addr.addr 0x98, bit := 0x7 },
    shift_mode := { address := Addr.addr 0xf2, modes := [("eco", 0xc2), ("comfort", 0xc1), ("sport", 0xc1), ("turbo", 0xc4)] },
    super_battery := { address := Addr.unknown, mask := 0xf },
    fan_mode := { address := Addr.addr 0xf4, modes := [("auto", 0xd), ("silent", 0x1d), ("advanced", 0x8d)] },
    cpu :=
      { rt_temp_address := Addr.addr 0x68, rt_fan_speed_address := Addr.addr 0x71,
        rt_fan_speed_base_min := 0x19, rt_fan_speed_base_max := 0x37,
        bs_fan_speed_address := Addr.unknown,
        bs_fan_speed_base_min := 0x0, bs_fan_speed_base_max := 0xf },
    gpu := { rt_temp_address := Addr.addr 0x80, rt_fan_speed_address := Addr.addr 0x89 } }

def CONF23 : Conf :=
  { allowed_fw := ["16WKEMS1.105"],
    charge_control :=
      { address := Addr.addr 0xef, offset_start := 0x8a,
        offset_end := 0x80, range_min := 0x8a,
        range_max := 0xe4 },
    webcam :=
      { address := Addr.addr 0x2e, block_address := Addr.unsupp,
        bit := 0x1 },
    fn_win_swap := { address := Addr.addr 0xbf, bit := 0x4, invert := true },
    cooler_boost := { address := Addr.addr 0x98, bit := 0x7 },
    shift_mode := { address := Addr.addr 0xf2, modes := [("comfort", 0xc1), ("eco", 0xc2), ("turbo", 0xc4)] },
    super_battery := { address := Addr.unsupp, mask := 0 },
    fan_mode := { address := Addr.addr 0xf4, modes := [("auto", 0xd), ("silent", 0x1d), ("advanced", 0x8d)] },
    cpu :=
      { rt_temp_address := Addr.addr 0x68, rt_fan_speed_address := Addr.addr 0x71,
        rt_fan_speed_base_min := 0x0, rt_fan_speed_base_max := 0x96,
        bs_fan_speed_address := Addr.unsupp,
        bs_fan_speed_base_min := 0x0, bs_fan_speed_base_max := 0xf },
    gpu := { rt_temp_address := Addr.addr 0x80, rt_fan_speed_address := Addr.addr 0x89 } }

def CONF24 : Conf :=
  { allowed_fw := ["14D1EMS1.103"],
    charge_control :=
      { address := Addr.addr 0xef, offset_start := 0x8a,
        offset_end := 0x80, range_min := 0x8a,
        range_max := 0xe4 },
    webcam :=
      { address := Addr.addr 0x2e, block_address := Addr.addr 0x2f,
        bit := 0x1 },
    fn_win_swap := { address := Addr.addr 0xbf, bit := 0x4, invert := true },
    cooler_boost := { address := Addr.addr 0x98, bit := 0x7 },
    shift_mode := { address := Addr.addr 0xf2, modes := [("eco", 0xc2), ("comfort", 0xc1), ("sport", 0xc0)] },
    super_battery := { address := Addr.unsupp, mask := 0xf },
    fan_mode := { address := Addr.addr 0xf4, modes := [("auto", 0xd), ("silent", 0x1d), ("advanced", 0x8d)] },
    cpu :=
      { rt_temp_address := Addr.addr 0x68, rt_fan_speed_address := Addr.addr 0x71,
        rt_fan_speed_base_min := 0x0, rt_fan_speed_base_max := 0x96,
        bs_fan_speed_address := Addr.unsupp,
        bs_fan_speed_base_min := 0x0, bs_fan_speed_base_max := 0xf },
    gpu := { rt_temp_address := Addr.unsupp, rt_fan_speed_address := Addr.unsupp } }

def CONF25 : Conf :=
  { allowed_fw := ["14F1EMS1.209", "14F1EMS1.211"],
    charge_control :=
      { address := Addr.addr 0xd7, offset_start := 0x8a,
        offset_end := 0x80, range_min := 0x8a,
        range_max := 0xe4 },
    webcam :=
      { address := Addr.addr 0x2e, block_address := Addr.addr 0x2f,
        bit := 0x1 },
    fn_win_swap := { address := Addr.addr 0xe8, bit := 0x4, invert := false },
    cooler_boost := { address := Addr.addr 0x98, bit := 0x7 },
    shift_mode := { address := Addr.addr 0xd2, modes := [("eco", 0xc2), ("comfort", 0xc1), ("turbo", 0xc4)] },
    super_battery := { address := Addr.addr 0xeb, mask := 0xf },
    fan_mode := { address := Addr.addr 0xd4, modes := [("auto", 0xd), ("silent", 0x1d), ("advanced", 0x8d)] },
    cpu :=
      { rt_temp_address := Addr.addr 0x68, rt_fan_speed_address := Addr.addr 0x71,
        rt_fan_speed_base_min := 0x19, rt_fan_speed_base_max := 0x37,
        bs_fan_speed_address := Addr.unsupp,
        bs_fan_speed_base_min := 0x0, bs_fan_speed_base_max := 0xf },
    gpu := { rt_temp_address := Addr.unknown, rt_fan_speed_address := Addr.addr 0x89 } }

def CONF26 : Conf :=
  { allowed_fw := ["14DLEMS1.105"],
    charge_control :=
      { address := Addr.addr 0xef, offset_start := 0x8a,
        offset_end := 0x80, range_min := 0xbc,
        range_max := 0xe4 },
    webcam :=
      { address := Addr.addr 0x2e, block_address := Addr.addr 0x2f,
        bit := 0x1 },
    fn_win_swap := { address := Addr.addr 0xbf, bit := 0x4, invert := false },
    cooler_boost := { address := Addr.addr 0x98, bit := 0x7 },
    shift_mode := { address := Addr.addr 0xf2, modes := [("eco", 0xc2), ("comfort", 0xc1), ("sport", 0xc0)] },
    super_battery := { address := Addr.unsupp, mask := 0xf },
    fan_mode := { address := Addr.addr 0xd4, modes := [("auto", 0xd), ("silent", 0x1d), ("advanced", 0x8d)] },
    cpu :=
      { rt_temp_address := Addr.addr 0x68, rt_fan_speed_address := Addr.addr 0xcd,
        rt_fan_speed_base_min := 0x19, rt_fan_speed_base_max := 0x37,
        bs_fan_speed_address := Addr.unsupp,
        bs_fan_speed_base_min := 0x0, bs_fan_speed_base_max := 0xf },
    gpu := { rt_temp_address := Addr.unsupp, rt_fan_speed_address := Addr.unsupp } }

def CONF27 : Conf :=
  { allowed_fw := ["17S2IMS1.113"],
    charge_control :=
      { address := Addr.addr 0xd7, offset_start := 0x8a,
        offset_end := 0x80, range_min := 0x8a,
        range_max := 0xe4 },
    webcam :=
      { address := Addr.addr 0x2e, block_address := Addr.addr 0x2f,
        bit := 0x1 },
    fn_win_swap := { address := Addr.addr 0xe8, bit := 0x4, invert := true },
    cooler_boost := { address := Addr.addr 0x98, bit := 0x7 },
    shift_mode := { address := Addr.addr 0xd2, modes := [("eco", 0xc2), ("comfort", 0xc1), ("sport", 0xc0), ("turbo", 0xc4)] },
    super_battery := { address := Addr.addr 0xeb, mask := 0xf },
    fan_mode := { address := Addr.addr 0xd4, modes := [("auto", 0xd), ("silent", 0x1d), ("advanced", 0x8d)] },
    cpu :=
      { rt_temp_address := Addr.addr 0x68, rt_fan_speed_address := Addr.addr 0x71,
        rt_fan_speed_base_min := 0x0, rt_fan_speed_base_max := 0x96,
        bs_fan_speed_address := Addr.unknown,
        bs_fan_speed_base_min := 0x0, bs_fan_speed_base_max := 0xf },
    gpu := { rt_temp_address := Addr.addr 0x80, rt_fan_speed_address := Addr.addr 0x89 } }

def CONF28 : Conf :=
  { allowed_fw := ["1822EMS1.105", "1822EMS1.109", "1822EMS1.111", "1822EMS1.112", "1822EMS1.114"],
    charge_control :=
      { address := Addr.addr 0xd7, offset_start := 0x8a,
        offset_end := 0x80, range_min := 0x8a,
        range_max := 0xe4 },
    webcam :=
      { address := Addr.unsupp, block_address := Addr.unsupp,
        bit := 0x1 },
    fn_win_swap := { address := Addr.addr 0xe8, bit := 0x4, invert := false },
    cooler_boost := { address := Addr.addr 0x98, bit := 0x7 },
    shift_mode := { address := Addr.addr 0xd2, modes := [("eco", 0xc2), ("comfort", 0xc1), ("turbo", 0xc4)] },
    super_battery := { address := Addr.addr 0xeb, mask := 0xf },
    fan_mode := { address := Addr.addr 0xd4, modes := [("auto", 0xd), ("silent", 0x1d), ("advanced", 0x8d)] },
    cpu :=
      { rt_temp_address := Addr.addr 0x68, rt_fan_speed_address := Addr.addr 0x71,
        rt_fan_speed_base_min := 0x0, rt_fan_speed_base_max := 0x96,
        bs_fan_speed_address := Addr.unsupp,
        bs_fan_speed_base_min := 0x0, bs_fan_speed_base_max := 0xf },
    gpu := { rt_temp_address := Addr.addr 0x80, rt_fan_speed_address := Addr.addr 0x89 } }

def CONF29 : Conf :=
  { allowed_fw := ["16V5EMS1.107"],
    charge_control :=
      { address := Addr.addr 0xd7, offset_start := 0x8a,
        offset_end := 0x80, range_min := 0x8a,
        range_max := 0xe4 },
    webcam :=
      { address := Addr.addr 0x2e, block_address := Addr.addr 0x2f,
        bit := 0x1 },
    fn_win_swap := { address := Addr.addr 0xe8, bit := 0x4, invert := true },
    cooler_boost := { address := Addr.addr 0x98, bit := 0x7 },
    shift_mode := { address := Addr.addr 0xd2, modes := [("eco", 0xc2), ("comfort", 0xc1), ("turbo", 0xc4)] },
    super_battery := { address := Addr.addr 0xeb, mask := 0xf },
    fan_mode := { address := Addr.addr 0xd4, modes := [("auto", 0xd), ("silent", 0x1d), ("advanced", 0x8d)] },
    cpu :=
      { rt_temp_address := Addr.addr 0x68, rt_fan_speed_address := Addr.unknown,
        rt_fan_speed_base_min := 0x0, rt_fan_speed_base_max := 0x3d,
        bs_fan_speed_address := Addr.unknown,
        bs_fan_speed_base_min := 0x0, bs_fan_speed_base_max := 0xf },
    gpu := { rt_temp_address := Addr.addr 0x80, rt_fan_speed_address := Addr.addr 0xcb } }

def CONF30 : Conf :=
  { allowed_fw := ["17Q2IMS1.10D"],
    charge_control :=
      { address := Addr.addr 0xd7, offset_start := 0x8a,
        offset_end := 0x80, range_min := 0x8a,
        range_max := 0xe4 },
    webcam :=
      { address := Addr.addr 0x2e, block_address := Addr.unsupp,
        bit := 0x1 },
    fn_win_swap := { address := Addr.addr 0xe8, bit := 0x4, invert := false },
    cooler_boost := { address := Addr.addr 0x98, bit := 0x7 },
    shift_mode := { address := Addr.addr 0xd2, modes := [("eco", 0xc2), ("comfort", 0xc1), ("sport", 0xc0), ("turbo", 0xc4)] },
    super_battery := { address := Addr.unsupp, mask := 0xf },
    fan_mode := { address := Addr.addr 0xd4, modes := [("auto", 0xd), ("silent", 0x1d), ("advanced", 0x8d)] },
    cpu :=
      { rt_temp_address := Addr.unknown, rt_fan_speed_address := Addr.unknown,
        rt_fan_speed_base_min := 0x0, rt_fan_speed_base_max := 0x96,
        bs_fan_speed_address := Addr.unknown,
        bs_fan_speed_base_min := 0x0, bs_fan_speed_base_max := 0xf },
    gpu := { rt_temp_address := Addr.unknown, rt_fan_speed_address := Addr.unknown } }

def CONF31 : Conf :=
  { allowed_fw := ["16Q4EMS1.110"],
    charge_control :=
      { address := Addr.addr 0xef, offset_start := 0x8a,
        offset_end := 0x80, range_min := 0x8a,
        range_max := 0xe4 },
    webcam :=
      { address := Addr.addr 0x2e, block_address := Addr.unsupp,
        bit := 0x1 },
    fn_win_swap := { address := Addr.addr 0xbf, bit := 0x4, invert := false },
    cooler_boost := { address := Addr.addr 0x98, bit := 0x7 },
    shift_mode := { address := Addr.addr 0xf2, modes := [("eco", 0xc2), ("comfort", 0xc1), ("turbo", 0xc4), ("sport", 0xc0)] },
    super_battery := { address := Addr.unsupp, mask := 0 },
    fan_mode := { address := Addr.addr 0xf4, modes := [("basic", 0x4c), ("auto", 0xc), ("advanced", 0x8c)] },
    cpu :=
      { rt_temp_address := Addr.addr 0x68, rt_fan_speed_address := Addr.addr 0x71,
        rt_fan_speed_base_min := 0x0, rt_fan_speed_base_max := 0x96,
        bs_fan_speed_address := Addr.unsupp,
        bs_fan_speed_base_min := 0x0, bs_fan_speed_base_max := 0xf },
    gpu := { rt_temp_address := Addr.addr 0x80, rt_fan_speed_address := Addr.unknown } }

def CONF32 : Conf :=
  { allowed_fw := ["158PIMS1.207", "158PIMS1.112"],
    charge_control :=
      { address := Addr.addr 0xd7, offset_start := 0x8a,
        offset_end := 0x80, range_min := 0x8a,
        range_max := 0xe4 },
    webcam :=
      { address := Addr.unsupp, block_address := Addr.unsupp,
        bit := 0x1 },
    fn_win_swap := { address := Addr.addr 0xe8, bit := 0x4, invert := false },
    cooler_boost := { address := Addr.addr 0x98, bit := 0x7 },
    shift_mode := { address := Addr.addr 0xd2, modes := [("eco", 0xc2), ("comfort", 0xc1), ("turbo", 0xc4)] },
    super_battery := { address := Addr.unknown, mask := 0xf },
    fan_mode := { address := Addr.addr 0xd4, modes := [("auto", 0xd), ("silent", 0x1d), ("advanced", 0x8d)] },
    cpu :=
      { rt_temp_address := Addr.addr 0x68, rt_fan_speed_address := Addr.unknown,
        rt_fan_speed_base_min := 0x0, rt_fan_speed_base_max := 0x96,
        bs_fan_speed_address := Addr.unsupp,
        bs_fan_speed_base_min := 0x0, bs_fan_speed_base_max := 0xf },
    gpu := { rt_temp_address := Addr.unsupp, rt_fan_speed_address := Addr.unknown } }

def CONF33 : Conf :=
  { allowed_fw := ["17N1EMS1.109"],
    charge_control :=
      { address := Addr.addr 0xd7, offset_start := 0x8a,
        offset_end := 0x80, range_min := 0x8a,
        range_max := 0xe4 },
    webcam :=
      { address := Addr.addr 0x2e, block_address := Addr.unsupp,
        bit := 0x1 },
    fn_win_swap := { address := Addr.addr 0xe8, bit := 0x4, invert := true },
    cooler_boost := { address := Addr.addr 0x98, bit := 0x7 },
    shift_mode := { address := Addr.addr 0xd2, modes := [("eco", 0xc2), ("comfort", 0xc1), ("sport", 0xc0)] },
    super_battery := { address := Addr.addr 0xeb, mask := 0xf },
    fan_mode := { address := Addr.addr 0xd4, modes := [("auto", 0xd), ("silent", 0x1d), ("advanced", 0x4d)] },
    cpu :=
      { rt_temp_address := Addr.addr 0x68, rt_fan_speed_address := Addr.addr 0x71,
        rt_fan_speed_base_min := 0x0, rt_fan_speed_base_max := 0x96,
        bs_fan_speed_address := Addr.unsupp,
        bs_fan_speed_base_min := 0x0, bs_fan_speed_base_max := 0x96 },
    gpu := { rt_temp_address := Addr.addr 0x80, rt_fan_speed_address := Addr.addr 0x89 } }

def CONF34 : Conf :=
  { allowed_fw := ["14C6EMS1.109"],
    charge_control :=
      { address := Addr.addr 0xd7, offset_start := 0x8a,
        offset_end := 0x80, range_min := 0x8a,
        range_max := 0xe4 },
    webcam :=
      { address := Addr.addr 0x2e, block_address := Addr.addr 0x2f,
        bit := 0x1 },
    fn_win_swap := { address := Addr.addr 0xe8, bit := 0x4, invert := false },
    cooler_boost := { address := Addr.addr 0x98, bit := 0x7 },
    shift_mode := { address := Addr.addr 0xd2, modes := [("eco", 0xc2), ("comfort", 0xc1), ("sport", 0xc0)] },
    super_battery := { address := Addr.addr 0xeb, mask := 0xf },
    fan_mode := { address := Addr.addr 0xd4, modes := [("auto", 0xd), ("silent", 0x1d), ("advanced", 0x4d)] },
    cpu :=
      { rt_temp_address := Addr.addr 0x68, rt_fan_speed_address := Addr.unknown,
        rt_fan_speed_base_min := 0, rt_fan_speed_base_max := 0,
        bs_fan_speed_address := Addr.unknown,
        bs_fan_speed_base_min := 0, bs_fan_speed_base_max := 0 },
    gpu := { rt_temp_address := Addr.unknown, rt_fan_speed_address := Addr.unknown } }

def CONF35 : Conf :=
  { allowed_fw := ["15M2IMS1.113"],
    charge_control :=
      { address := Addr.addr 0xd7, offset_start := 0x8a,
        offset_end := 0x80, range_min := 0x8a,
        range_max := 0xe4 },
    webcam :=
      { address := Addr.addr 0x2e, block_address := Addr.unsupp,
        bit := 0x1 },
    fn_win_swap := { address := Addr.addr 0xe8, bit := 0x4, invert := true },
    cooler_boost := { address := Addr.addr 0x98, bit := 0x7 },
    shift_mode := { address := Addr.addr 0xd2, modes := [("comfort", 0xc1), ("eco", 0xc2), ("turbo", 0xc4)] },
    super_battery := { address := Addr.addr 0xeb, mask := 0xf },
    fan_mode := { address := Addr.addr 0xd4, modes := [("auto", 0xd), ("silent", 0x1d), ("advanced", 0x8d)] },
    cpu :=
      { rt_temp_address := Addr.addr 0x68, rt_fan_speed_address := Addr.addr 0x71,
        rt_fan_speed_base_min := 0x0, rt_fan_speed_base_max := 0x96,
        bs_fan_speed_address := Addr.unsupp,
        bs_fan_speed_base_min := 0x0, bs_fan_speed_base_max := 0xf },
    gpu := { rt_temp_address := Addr.addr 0x80, rt_fan_speed_address := Addr.addr 0x89 } }

def CONF36 : Conf :=
  { allowed_fw := ["1585EMS1.115"],
    charge_control :=
      { address := Addr.addr 0xd7, offset_start := 0x8a,
        offset_end := 0x80, range_min := 0x8a,
        range_max := 0xe4 },
    webcam :=
      { address := Addr.addr 0x2e, block_address := Addr.unsupp,
        bit := 0x1 },
    fn_win_swap := { address := Addr.addr 0xe8, bit := 0x4, invert := true },
    cooler_boost := { address := Addr.addr 0x98, bit := 0x7 },
    shift_mode := { address := Addr.addr 0xd2, modes := [("eco", 0xc2), ("comfort", 0xc1), ("sport", 0xc4)] },
    super_battery := { address := Addr.addr 0xeb, mask := 0xf },
    fan_mode := { address := Addr.addr 0xd4, modes := [("auto", 0xd), ("silent", 0x1d), ("advanced", 0x8d)] },
    cpu :=
      { rt_temp_address := Addr.addr 0x68, rt_fan_speed_address := Addr.addr 0xc9,
        rt_fan_speed_base_min := 0x0, rt_fan_speed_base_max := 0x96,
        bs_fan_speed_address := Addr.unsupp,
        bs_fan_speed_base_min := 0x0, bs_fan_speed_base_max := 0x96 },
    gpu := { rt_temp_address := Addr.addr 0x80, rt_fan_speed_address := Addr.addr 0xcb } }

def CONF37 : Conf :=
  { allowed_fw := ["15M1IMS1.113"],
    charge_control :=
      { address := Addr.addr 0xd7, offset_start := 0x8a,
        offset_end := 0x80, range_min := 0x8a,
        range_max := 0xe4 },
    webcam :=
      { address := Addr.addr 0x2e, block_address := Addr.addr 0x2f,
        bit := 0x1 },
    fn_win_swap := { address := Addr.addr 0xe8, bit := 0x4, invert := true },
    cooler_boost := { address := Addr.addr 0x98, bit := 0x7 },
    shift_mode := { address := Addr.addr 0xd2, modes := [("eco", 0xc2), ("comfort", 0xc1), ("turbo", 0xc4)] },
    super_battery := { address := Addr.addr 0xeb, mask := 0xf },
    fan_mode := { address := Addr.addr 0xd4, modes := [("auto", 0xd), ("silent", 0x1d), ("advanced", 0x8d)] },
    cpu :=
      { rt_temp_address := Addr.addr 0x68, rt_fan_speed_address := Addr.addr 0x71,
        rt_fan_speed_base_min := 0x19, rt_fan_speed_base_max := 0x37,
        bs_fan_speed_address := Addr.unsupp,
        bs_fan_speed_base_min := 0x0, bs_fan_speed_base_max := 0xf },
    gpu := { rt_temp_address := Addr.addr 0x80, rt_fan_speed_address := Addr.addr 0x89 } }

def CONF38 : Conf :=
  { allowed_fw := ["17E8IMS1.106", "17E8EMS1.101"],
    charge_control :=
      { address := Addr.addr 0xef, offset_start := 0x8a,
        offset_end := 0x80, range_min := 0x8a,
        range_max := 0xe4 },
    webcam :=
      { address := Addr.addr 0x2e, block_address := Addr.addr 0x2f,
        bit := 0x1 },
    fn_win_swap := { address := Addr.addr 0xbf, bit := 0x4, invert := false },
    cooler_boost := { address := Addr.addr 0x98, bit := 0x7 },
    shift_mode := { address := Addr.addr 0xf2, modes := [("eco", 0xc2), ("comfort", 0xc1), ("sport", 0xc0), ("turbo", 0xc4)] },
    super_battery := { address := Addr.unknown, mask := 0 },
    fan_mode := { address := Addr.addr 0xf4, modes := [("auto", 0x0), ("advanced", 0x80)] },
    cpu :=
      { rt_temp_address := Addr.addr 0x68, rt_fan_speed_address := Addr.addr 0x71,
        rt_fan_speed_base_min := 0x19, rt_fan_speed_base_max := 0x37,
        bs_fan_speed_address := Addr.addr 0x89,
        bs_fan_speed_base_min := 0x0, bs_fan_speed_base_max := 0xf },
    gpu := { rt_temp_address := Addr.addr 0x80, rt_fan_speed_address := Addr.addr 0x89 } }

def CONF39 : Conf :=
  { allowed_fw := ["16R8IMS1.117"],
    charge_control :=
      { address := Addr.addr 0xd7, offset_start := 0x8a,
        offset_end := 0x80, range_min := 0x8a,
        range_max := 0xe4 },
    webcam :=
      { address := Addr.addr 0x2e, block_address := Addr.unsupp,
        bit := 0x1 },
    fn_win_swap := { address := Addr.addr 0xe8, bit := 0x4, invert := false },
    cooler_boost := { address := Addr.addr 0x98, bit := 0x7 },
    shift_mode := { address := Addr.addr 0xd2, modes := [("eco", 0xc2), ("comfort", 0xc1), ("turbo", 0xc4)] },
    super_battery := { address := Addr.addr 0xeb, mask := 0xf },
    fan_mode := { address := Addr.addr 0xd4, modes := [("auto", 0xd), ("silent", 0x1d), ("advanced", 0x8d)] },
    cpu :=
      { rt_temp_address := Addr.addr 0x68, rt_fan_speed_address := Addr.addr 0x71,
        rt_fan_speed_base_min := 0x0, rt_fan_speed_base_max := 0x96,
        bs_fan_speed_address := Addr.unknown,
        bs_fan_speed_base_min := 0x0, bs_fan_speed_base_max := 0xf },
    gpu := { rt_temp_address := Addr.addr 0x80, rt_fan_speed_address := Addr.unsupp } }

def CONF40 : Conf :=
  { allowed_fw := ["17S1IMS1.105"],
    charge_control :=
      { address := Addr.addr 0xd7, offset_start := 0x8a,
        offset_end := 0x80, range_min := 0x8a,
        range_max := 0xe4 },
    webcam :=
      { address := Addr.addr 0x2e, block_address := Addr.unsupp,
        bit := 0x1 },
    fn_win_swap := { address := Addr.addr 0xe8, bit := 0x4, invert := true },
    cooler_boost := { address := Addr.addr 0x98, bit := 0x7 },
    shift_mode := { address := Addr.addr 0xd2, modes := [("comfort", 0xc1), ("eco", 0xc2), ("turbo", 0xc4)] },
    super_battery := { address := Addr.addr 0xeb, mask := 0xf },
    fan_mode := { address := Addr.addr 0xd4, modes := [("auto", 0xd), ("silent", 0x1d), ("advanced", 0x8d)] },
    cpu :=
      { rt_temp_address := Addr.addr 0x68, rt_fan_speed_address := Addr.addr 0x71,
        rt_fan_speed_base_min := 0x0, rt_fan_speed_base_max := 0x96,
        bs_fan_speed_address := Addr.addr 0x89,
        bs_fan_speed_base_min := 0x0, bs_fan_speed_base_max := 0xf },
    gpu := { rt_temp_address := Addr.addr 0x80, rt_fan_speed_address := Addr.addr 0x89 } }

def CONF41 : Conf :=
  { allowed_fw := ["15M1IMS2.111"],
    charge_control :=
      { address := Addr.addr 0xd7, offset_start := 0x8a,
        offset_end := 0x80, range_min := 0x8a,
        range_max := 0xe4 },
    webcam :=
      { address := Addr.addr 0x2e, block_address := Addr.unsupp,
        bit := 0x1 },
    fn_win_swap := { address := Addr.addr 0xe8, bit := 0x4, invert := false },
    cooler_boost := { address := Addr.addr 0x98, bit := 0x7 },
    shift_mode := { address := Addr.addr 0xd2, modes := [("comfort", 0xc1), ("turbo", 0xc4)] },
    super_battery := { address := Addr.unsupp, mask := 0 },
    fan_mode := { address := Addr.addr 0xd4, modes := [("auto", 0xd), ("advanced", 0x8d)] },
    cpu :=
      { rt_temp_address := Addr.addr 0x68, rt_fan_speed_address := Addr.addr 0x71,
        rt_fan_speed_base_min := 0x0, rt_fan_speed_base_max := 0x96,
        bs_fan_speed_address := Addr.addr 0x89,
        bs_fan_speed_base_min := 0x0, bs_fan_speed_base_max := 0x96 },
    gpu := { rt_temp_address := Addr.addr 0x80, rt_fan_speed_address := Addr.addr 0x89 } }

def CONF42 : Conf :=
  { allowed_fw := ["14L1EMS1.307", "14L1EMS1.308"],
    charge_control :=
      { address := Addr.addr 0xd7, offset_start := 0x8a,
        offset_end := 0x80, range_min := 0x8a,
        range_max := 0xe4 },
    webcam :=
      { address := Addr.unsupp, block_address := Addr.addr 0x2f,
        bit := 0x1 },
    fn_win_swap := { address := Addr.addr 0xe8, bit := 0x4, invert := false },
    cooler_boost := { address := Addr.addr 0x98, bit := 0x7 },
    shift_mode := { address := Addr.addr 0xd2, modes := [("eco", 0xc2), ("comfort", 0xc1), ("turbo", 0xc4)] },
    super_battery := { address := Addr.addr 0xeb, mask := 0xf },
    fan_mode := { address := Addr.addr 0xd4, modes := [("auto", 0xd), ("silent", 0x1d), ("advanced", 0x8d)] },
    cpu :=
      { rt_temp_address := Addr.addr 0x68, rt_fan_speed_address := Addr.addr 0xc9,
        rt_fan_speed_base_min := 0x0, rt_fan_speed_base_max := 0x96,
        bs_fan_speed_address := Addr.unsupp,
        bs_fan_speed_base_min := 0x0, bs_fan_speed_base_max := 0xf },
    gpu := { rt_temp_address := Addr.unsupp, rt_fan_speed_address := Addr.unsupp } }

def CONFIGURATIONS : List Conf := [CONF0, CONF1, CONF2, CONF3, CONF4, CONF5, CONF6, CONF7, CONF8, CONF9, CONF10, CONF11, CONF12, CONF13, CONF14, CONF15, CONF16, CONF17, CONF18, CONF19, CONF20, CONF21, CONF22, CONF23, CONF24, CONF25, CONF26, CONF27, CONF28, CONF29, CONF30, CONF31, CONF32, CONF33, CONF34, CONF35, CONF36, CONF37, CONF38, CONF39, CONF40, CONF41, CONF42]

-- ============================================================ --
-- Error numbers (returned negated, as in the kernel)
-- ============================================================ --

def EINVAL : Int := 22
def ERANGE : Int := 34
def EOPNOTSUPP : Int := 95

-- ============================================================ --
-- Register access layer
-- ============================================================ --

/-- One EC transport read per address: a byte, or an I/O error. -/
def EcRead : Type := Addr → Except Int Nat

/-- A register file whose reads always succeed. -/
def Mem : Type := Addr → Nat

def memRead (mem : Mem) : EcRead := fun a => Except.ok (mem a)

/-- The `set_bit` / `unset_bit` macros: the modify half of a read-modify-write
on one unsigned byte. -/
def applyBit (v bit : Nat) (value : Bool) : Nat :=
  if value then v ||| (1 <<< bit) else v &&& (255 ^^^ (1 <<< bit))

/-- `ec_set_bit` on an always-succeeding register file: the
`ec_set_bit_mutex` makes the whole read-modify-write atomic, so it is one
state update. -/
def ec_set_bit (mem : Mem) (addr : Addr) (bit : Nat) (value : Bool) : Mem :=
  fun a => if a = addr then applyBit (mem addr) bit value else mem a

/-- `ec_check_bit`. -/
def ec_check_bit (read : EcRead) (addr : Addr) (bit : Nat) : Except Int Bool :=
  match read addr with
  | .ok v => .ok (v.testBit bit)
  | .error e => .error e

/-- `ec_check_by_mask`: "present" means all mask bits are set. -/
def ec_check_by_mask (read : EcRead) (addr : Addr) (mask : Nat) : Except Int Bool :=
  match read addr with
  | .ok v => .ok (v &&& mask == mask)
  | .error e => .error e

/-- The `streq` macro: exact match, or match with a trailing newline appended
to the literal. -/
def streq (buf lit : String) : Bool := buf == lit || buf == lit ++ "\n"

/-- Drop one trailing newline, if present. -/
def stripNl (s : String) : String :=
  if s.data.getLast? = some '\n' then String.mk s.data.dropLast else s

/-- `sysfs_streq`: string equality ignoring one trailing newline on either
side. -/
def sysfs_streq (a b : String) : Bool := stripNl a == stripNl b

-- ============================================================ --
-- Configuration resolver and probe
-- ============================================================ --

/-- The catalog-matching loop of `load_configuration`: iterate the catalog in
declaration order and select the first profile whose `allowed_fw` list
contains the identifier (`match_string` compares with exact `strcmp`).  On a
match the profile is copied into the active configuration
(`conf_loaded = true`); on no match the debug flag turns the "unsupported
firmware" failure into success with no loaded configuration. -/
def load_configuration : List Conf → String → Bool → Except Int (Bool × Option Conf)
  | [], _, debug => if debug then .ok (false, none) else .error (-EOPNOTSUPP)
  | c :: rest, ver, debug =>
      if c.allowed_fw.contains ver then .ok (true, some c)
      else load_configuration rest ver debug

/-- `msi_platform_probe`, as the list of sysfs groups it creates: the debug
group only under the debug flag, and the feature groups (root/cpu/gpu) only
when a configuration was loaded. -/
def msi_platform_probe (conf_loaded debug : Bool) : List String :=
  (if debug then ["debug"] else []) ++
    (if conf_loaded then ["root", "cpu", "gpu"] else [])

-- ============================================================ --
-- Capability gate (msi_ec_is_visible)
-- ============================================================ --

/-- The attributes `msi_ec_is_visible` recognizes; `other` stands for any
attribute that falls through to the default branch (fw_version, ...). -/
inductive MsiAttr where
  | webcam
  | webcam_block
  | fn_key
  | win_key
  | battery_mode
  | cooler_boost
  | available_shift_modes
  | shift_mode
  | super_battery
  | available_fan_modes
  | fan_mode
  | cpu_realtime_temperature
  | cpu_realtime_fan_speed
  | cpu_basic_fan_speed
  | gpu_realtime_temperature
  | gpu_realtime_fan_speed
  | other
  deriving DecidableEq, Repr

/-- The gating address computed by the if-chain of `msi_ec_is_visible`
(`none` for attributes that take the default branch). -/
def attr_gate_address (c : Conf) : MsiAttr → Option Addr
  | .webcam => some c.webcam.address
  | .webcam_block => some c.webcam.block_address
  | .fn_key => some c.fn_win_swap.address
  | .win_key => some c.fn_win_swap.address
  | .battery_mode => some c.charge_control.address
  | .cooler_boost => some c.cooler_boost.address
  | .available_shift_modes => some c.shift_mode.address
  | .shift_mode => some c.shift_mode.address
  | .super_battery => some c.super_battery.address
  | .available_fan_modes => some c.fan_mode.address
  | .fan_mode => some c.fan_mode.address
  | .cpu_realtime_temperature => some c.cpu.rt_temp_address
  | .cpu_realtime_fan_speed => some c.cpu.rt_fan_speed_address
  | .cpu_basic_fan_speed => some c.cpu.bs_fan_speed_address
  | .gpu_realtime_temperature => some c.gpu.rt_temp_address
  | .gpu_realtime_fan_speed => some c.gpu.rt_fan_speed_address
  | .other => none

/-- `msi_ec_is_visible`: an attribute is hidden (mode 0) exactly when its
gating address is the `Unsupported` sentinel; every other attribute keeps
`attr->mode`. -/
def msi_ec_is_visible (c : Conf) (a : MsiAttr) (mode : Nat) : Nat :=
  match attr_gate_address c a with
  | none => mode
  | some ad => if ad = Addr.unsupp then 0 else mode

-- ============================================================ --
-- Charge-control threshold codec
-- ============================================================ --

/-- `charge_control_threshold_show`: read the charge-control register and
propagate a read error; the raw byte `0x80` means "thresholds are unknown"
and is reported as 0; otherwise the report is raw minus the per-attribute
offset, computed in C in signed int arithmetic. -/
def charge_control_threshold_show (c : Conf) (offset : Nat) (read : EcRead) :
    Except Int Int :=
  match read c.charge_control.address with
  | .error e => .error e
  | .ok rdata =>
      if rdata = 0x80 then .ok 0 else .ok ((rdata : Int) - (offset : Int))

/-- `charge_control_threshold_store`: `kstrtou8` rejects input above 255 with
-ERANGE; `wdata += offset` wraps in unsigned 8-bit arithmetic; a result
outside [range_min, range_max] is rejected with -EINVAL before any write.
`.ok w` means the byte `w` was written to the charge-control address. -/
def charge_control_threshold_store (c : Conf) (offset p : Nat) : Except Int Nat :=
  if 255 < p then .error (-ERANGE)
  else if (p + offset) % 256 < c.charge_control.range_min ∨
      c.charge_control.range_max < (p + offset) % 256 then
    .error (-EINVAL)
  else .ok ((p + offset) % 256)

-- ============================================================ --
-- Basic fan-speed (range) codec
-- ============================================================ --

/-- `cpu_basic_fan_speed_show` after a successful register read: a raw byte
outside [base_min, base_max] is a read fault (-EINVAL), not clamped;
otherwise the percentage is the integer rescale to 0..100. -/
def cpu_basic_fan_speed_show (c : Conf) (rdata : Nat) : Except Int Nat :=
  if rdata < c.cpu.bs_fan_speed_base_min ∨ c.cpu.bs_fan_speed_base_max < rdata then
    .error (-EINVAL)
  else
    .ok (100 * (rdata - c.cpu.bs_fan_speed_base_min) /
          (c.cpu.bs_fan_speed_base_max - c.cpu.bs_fan_speed_base_min))

/-- `cpu_basic_fan_speed_store`: `kstrtou8` rejects input above 255 with
-ERANGE; a percentage above 100 is rejected with -EINVAL before any write;
otherwise the rescaled byte is written (`.ok w` = wrote `w`). -/
def cpu_basic_fan_speed_store (c : Conf) (p : Nat) : Except Int Nat :=
  if 255 < p then .error (-ERANGE)
  else if 100 < p then .error (-EINVAL)
  else
    .ok ((p * (c.cpu.bs_fan_speed_base_max - c.cpu.bs_fan_speed_base_min) +
          100 * c.cpu.bs_fan_speed_base_min) / 100)

-- ============================================================ --
-- Mode-table codec
-- ============================================================ --

/-- The user-visible result of a mode-table read. -/
inductive ModeShow where
  | mode (name : String)
  | unspecified
  | unknown (raw : Nat)
  deriving DecidableEq, Repr

/-- The linear table scan shared by the mode-table shows: the first entry
whose raw value matches. -/
def scanModes : List (String × Nat) → Nat → Option String
  | [], _ => none
  | (nm, v) :: rest, raw => if raw = v then some nm else scanModes rest raw

/-- `shift_mode_show` after a successful read: the raw byte `0x80` is
reported as "unspecified" before the table is consulted; an unmatched byte is
reported as "unknown (raw)", never as an error. -/
def shift_mode_show (c : Conf) (rdata : Nat) : ModeShow :=
  if rdata = 0x80 then .unspecified
  else
    match scanModes c.shift_mode.modes rdata with
    | some nm => .mode nm
    | none => .unknown rdata

/-- `fan_mode_show` after a successful read: a plain table scan with no
sentinel check; an unmatched byte is reported as "unknown (raw)". -/
def fan_mode_show (c : Conf) (rdata : Nat) : ModeShow :=
  match scanModes c.fan_mode.modes rdata with
  | some nm => .mode nm
  | none => .unknown rdata

/-- The store loop shared by `shift_mode_store` and `fan_mode_store`: the
first entry whose name matches the buffer (`sysfs_streq`) has its raw value
written (`.ok v` = wrote `v`); no match returns -EINVAL with no write. -/
def mode_store : List (String × Nat) → String → Except Int Nat
  | [], _ => .error (-EINVAL)
  | (nm, v) :: rest, buf =>
      if sysfs_streq nm buf then .ok v else mode_store rest buf

def shift_mode_store (c : Conf) (buf : String) : Except Int Nat :=
  mode_store c.shift_mode.modes buf

def fan_mode_store (c : Conf) (buf : String) : Except Int Nat :=
  mode_store c.fan_mode.modes buf

-- ============================================================ --
-- Single-bit attributes (fn/win key, cooler boost, super battery)
-- ============================================================ --

/-- `fn_key_show`.  The C code never checks the result of `ec_check_bit`: on
a read error `bit_value` keeps its indeterminate stack value (the `junk`
parameter here) and a value is emitted anyway. -/
def fn_key_show (c : Conf) (read : EcRead) (junk : Bool) : Except Int String :=
  let bit_value :=
    match ec_check_bit read c.fn_win_swap.address c.fn_win_swap.bit with
    | .ok b => b
    | .error _ => junk
  if Bool.xor bit_value c.fn_win_swap.invert then .ok "right" else .ok "left"

/-- `win_key_show`: same read (and same missing error check) as
`fn_key_show`, with the two labels swapped. -/
def win_key_show (c : Conf) (read : EcRead) (junk : Bool) : Except Int String :=
  let bit_value :=
    match ec_check_bit read c.fn_win_swap.address c.fn_win_swap.bit with
    | .ok b => b
    | .error _ => junk
  if Bool.xor bit_value c.fn_win_swap.invert then .ok "left" else .ok "right"

/-- `cooler_boost_show`: same missing error check as `fn_key_show`. -/
def cooler_boost_show (c : Conf) (read : EcRead) (junk : Bool) : Except Int String :=
  let bit_value :=
    match ec_check_bit read c.cooler_boost.address c.cooler_boost.bit with
    | .ok b => b
    | .error _ => junk
  if bit_value then .ok "on" else .ok "off"

/-- `super_battery_show`: the result of `ec_check_by_mask` is not checked
either; on a read error `enabled` is indeterminate. -/
def super_battery_show (c : Conf) (read : EcRead) (junk : Bool) : Except Int String :=
  let enabled :=
    match ec_check_by_mask read c.super_battery.address c.super_battery.mask with
    | .ok b => b
    | .error _ => junk
  if enabled then .ok "on" else .ok "off"

/-- Outcome of the fn/win key stores. -/
inductive StoreRes where
  | count
  | undef
  deriving DecidableEq, Repr

/-- `fn_key_store` (`streq` matching): "right" writes `true ^ invert` to the
swap bit, "left" writes `false ^ invert`; any other buffer writes nothing and
leaves the C result variable uninitialized (`undef`). -/
def fn_key_store (c : Conf) (mem : Mem) (buf : String) : Mem × StoreRes :=
  if streq buf "right" then
    (ec_set_bit mem c.fn_win_swap.address c.fn_win_swap.bit
      (Bool.xor true c.fn_win_swap.invert), .count)
  else if streq buf "left" then
    (ec_set_bit mem c.fn_win_swap.address c.fn_win_swap.bit
      (Bool.xor false c.fn_win_swap.invert), .count)
  else (mem, .undef)

/-- `win_key_store`: the mirror image of `fn_key_store`. -/
def win_key_store (c : Conf) (mem : Mem) (buf : String) : Mem × StoreRes :=
  if streq buf "right" then
    (ec_set_bit mem c.fn_win_swap.address c.fn_win_swap.bit
      (Bool.xor false c.fn_win_swap.invert), .count)
  else if streq buf "left" then
    (ec_set_bit mem c.fn_win_swap.address c.fn_win_swap.bit
      (Bool.xor true c.fn_win_swap.invert), .count)
  else (mem, .undef)

-- ============================================================ --
-- Concurrent ec_set_bit model (one register, N threads)
-- ============================================================ --

/-- State of N concurrent `ec_set_bit` calls against one register byte.
Program counters: 0 = about to take `ec_set_bit_mutex`, 1 = holding it,
about to read, 2 = read done (private copy in `reg`), about to write,
3 = wrote, about to unlock, 4 = done. -/
structure CState (n : Nat) where
  mem : Nat
  lock : Option (Fin n)
  pc : Fin n → Nat
  reg : Fin n → Nat

def initCState (n : Nat) (m0 : Nat) : CState n :=
  { mem := m0, lock := none, pc := fun _ => 0, reg := fun _ => 0 }

/-- One scheduler step giving thread `t` a turn: taking the mutex while
another thread holds it blocks (no state change); read and write each move
one instruction, and the write applies the thread's intended bit update to
the byte it read. -/
def stepT {n : Nat} (bits : Fin n → Nat) (vals : Fin n → Bool)
    (s : CState n) (t : Fin n) : CState n :=
  if s.pc t = 0 then
    match s.lock with
    | none => { s with lock := some t, pc := Function.update s.pc t 1 }
    | some _ => s
  else if s.pc t = 1 then
    { s with reg := Function.update s.reg t s.mem, pc := Function.update s.pc t 2 }
  else if s.pc t = 2 then
    { s with mem := applyBit (s.reg t) (bits t) (vals t),
             pc := Function.update s.pc t 3 }
  else if s.pc t = 3 then
    { s with lock := none, pc := Function.update s.pc t 4 }
  else s

/-- Run an arbitrary interleaving (list of thread turns). -/
def runSched {n : Nat} (bits : Fin n → Nat) (vals : Fin n → Bool)
    (m0 : Nat) (sched : List (Fin n)) : CState n :=
  sched.foldl (stepT bits vals) (initCState n m0)

/-- The inductive invariant of the concurrent `ec_set_bit` model: the mutex
discipline (the lock holder is the only thread between acquire and release),
the freshness of the private copy taken under the lock, and an exact account
of which bits of the register have already been rewritten. -/
def CInv {n : Nat} (bits : Fin n → Nat) (vals : Fin n → Bool) (m0 : Nat)
    (s : CState n) : Prop :=
  (match s.lock with
    | none => ∀ t, s.pc t = 0 ∨ s.pc t = 4
    | some u => (s.pc u = 1 ∨ s.pc u = 2 ∨ s.pc u = 3) ∧
        ∀ t, t ≠ u → s.pc t = 0 ∨ s.pc t = 4)
  ∧ (∀ t, s.pc t = 2 → s.reg t = s.mem)
  ∧ (∀ t, 3 ≤ s.pc t → s.mem.testBit (bits t) = vals t)
  ∧ (∀ i, i < 8 → (∀ t, bits t = i → s.pc t < 3) → s.mem.testBit i = m0.testBit i)

-- ============================================================ --
-- Helper lemmas
-- ============================================================ --

lemma testBit_255 (i : Nat) : Nat.testBit 255 i = decide (i < 8) := by
  have h : (255 : Nat) = 2 ^ 8 - 1 := by norm_num
  rw [h, Nat.testBit_two_pow_sub_one]

lemma applyBit_testBit_self (v bit : Nat) (value : Bool) (h : bit < 8) :
    (applyBit v bit value).testBit bit = value := by
  cases value with
  | true =>
      simp [applyBit, Nat.shiftLeft_eq, Nat.testBit_lor, Nat.testBit_two_pow_self]
  | false =>
      rw [applyBit, if_neg (by simp), Nat.testBit_land, Nat.testBit_xor,
        Nat.shiftLeft_eq, one_mul, testBit_255, Nat.testBit_two_pow_self]
      simp [h]

lemma applyBit_testBit_of_ne (v bit i : Nat) (value : Bool) (hi : i < 8)
    (hne : i ≠ bit) : (applyBit v bit value).testBit i = v.testBit i := by
  cases value with
  | true =>
      simp [applyBit, Nat.shiftLeft_eq, Nat.testBit_lor,
        Nat.testBit_two_pow_of_ne (Ne.symm hne)]
  | false =>
      rw [applyBit, if_neg (by simp), Nat.testBit_land, Nat.testBit_xor,
        Nat.shiftLeft_eq, one_mul, testBit_255,
        Nat.testBit_two_pow_of_ne (Ne.symm hne)]
      simp [hi]

lemma scanModes_eq_none (modes : List (String × Nat)) (raw : Nat)
    (h : ∀ p ∈ modes, p.2 ≠ raw) : scanModes modes raw = none := by
  induction modes with
  | nil => rfl
  | cons p rest ih =>
      obtain ⟨nm, v⟩ := p
      have hv : v ≠ raw := h (nm, v) (List.mem_cons_self _ _)
      simp only [scanModes, if_neg (fun hr : raw = v => hv hr.symm)]
      exact ih fun q hq => h q (List.mem_cons_of_mem _ hq)

lemma scanModes_eq_some (modes : List (String × Nat)) (nm : String) (v : Nat)
    (hmem : (nm, v) ∈ modes)
    (huniq : ∀ p ∈ modes, p.2 = v → p.1 = nm) :
    scanModes modes v = some nm := by
  induction modes with
  | nil => cases hmem
  | cons p rest ih =>
      obtain ⟨nm1, v1⟩ := p
      by_cases hv : v = v1
      · subst hv
        have : nm1 = nm := huniq (nm1, v) (List.mem_cons_self _ _) rfl
        subst this
        simp [scanModes]
      · have hmem2 : (nm, v) ∈ rest := by
          rcases List.mem_cons.mp hmem with heq | h2
          · exact absurd (congrArg Prod.snd heq) hv
          · exact h2
        simp only [scanModes, if_neg hv]
        exact ih hmem2 fun q hq => huniq q (List.mem_cons_of_mem _ hq)

lemma mode_store_no_match (modes : List (String × Nat)) (buf : String)
    (h : ∀ p ∈ modes, sysfs_streq p.1 buf = false) :
    mode_store modes buf = .error (-EINVAL) := by
  induction modes with
  | nil => rfl
  | cons p rest ih =>
      obtain ⟨nm, v⟩ := p
      have hnm : sysfs_streq nm buf = false := h (nm, v) (List.mem_cons_self _ _)
      simp only [mode_store, hnm, Bool.false_eq_true, if_false]
      exact ih fun q hq => h q (List.mem_cons_of_mem _ hq)

lemma load_configuration_eq_find (catalog : List Conf) (ver : String)
    (debug : Bool) :
    load_configuration catalog ver debug =
      match catalog.find? (fun c => c.allowed_fw.contains ver) with
      | some c => .ok (true, some c)
      | none => if debug then .ok (false, none) else .error (-EOPNOTSUPP) := by
  induction catalog with
  | nil => rfl
  | cons c rest ih =>
      have hstep : load_configuration (c :: rest) ver debug =
          if c.allowed_fw.contains ver then Except.ok (true, some c)
          else load_configuration rest ver debug := rfl
      cases h : c.allowed_fw.contains ver with
      | true =>
          have hfind : List.find? (fun c => c.allowed_fw.contains ver) (c :: rest) =
              some c := List.find?_cons_of_pos _ h
          rw [hstep, if_pos h, hfind]
      | false =>
          have hne : ¬ (c.allowed_fw.contains ver = true) := by
            rw [h]; exact Bool.false_ne_true
          have hfind : List.find? (fun c => c.allowed_fw.contains ver) (c :: rest) =
              List.find? (fun c => c.allowed_fw.contains ver) rest :=
            List.find?_cons_of_neg _ hne
          rw [hstep, if_neg hne, hfind, ih]

/-- Numeric facts about every charge-control block in the catalog: both
offsets are at most `range_min`, the sentinel `0x80` lies below `range_min`,
and `range_max` fits in a byte. -/
lemma cc_catalog_bounds :
    ∀ c ∈ CONFIGURATIONS,
      c.charge_control.offset_start ≤ c.charge_control.range_min ∧
      c.charge_control.offset_end ≤ c.charge_control.range_min ∧
      0x80 < c.charge_control.range_min ∧
      c.charge_control.range_min ≤ c.charge_control.range_max ∧
      c.charge_control.range_max ≤ 255 := by decide

lemma threshold_show_of_ne (c : Conf) (offset raw : Nat) (h : raw ≠ 0x80) :
    charge_control_threshold_show c offset (memRead fun _ => raw) =
      .ok ((raw : Int) - (offset : Int)) := by
  simp [charge_control_threshold_show, memRead, h]

lemma threshold_store_roundtrip (c : Conf) (offset raw : Nat)
    (hoff : offset ≤ c.charge_control.range_min)
    (hmax : c.charge_control.range_max ≤ 255)
    (h1 : c.charge_control.range_min ≤ raw)
    (h2 : raw ≤ c.charge_control.range_max) :
    charge_control_threshold_store c offset (raw - offset) = .ok raw := by
  have hmod : (raw - offset + offset) % 256 = raw := by omega
  simp only [charge_control_threshold_store, hmod]
  rw [if_neg (by omega : ¬ 255 < raw - offset), if_neg (by omega :
    ¬ (raw < c.charge_control.range_min ∨ c.charge_control.range_max < raw))]

-- ============================================================ --
-- Claim theorems
-- ============================================================ --

/-- C1: Configuration resolution iterates the profile catalog in declaration
order and selects the first profile whose allow-list contains the firmware
identifier (exact string equality), copying it into the active configuration
and succeeding; on no match it fails with -EOPNOTSUPP unless the debug flag
is set, in which case it succeeds with `conf_loaded` false, and
`msi_platform_probe` then creates no feature attribute group. -/
theorem load_configuration_spec :
    (∀ (catalog : List Conf) (ver : String) (debug : Bool),
        load_configuration catalog ver debug =
          match catalog.find? (fun c => c.allowed_fw.contains ver) with
          | some c => .ok (true, some c)
          | none => if debug then .ok (false, none) else .error (-EOPNOTSUPP))
    ∧ load_configuration CONFIGURATIONS "16S6EMS1.111" false = .ok (true, some CONF11)
    ∧ load_configuration CONFIGURATIONS "XXXXEMS1.999" false = .error (-EOPNOTSUPP)
    ∧ load_configuration CONFIGURATIONS "XXXXEMS1.999" true = .ok (false, none)
    ∧ (∀ debug, msi_platform_probe false debug = if debug then ["debug"] else []) := by
  refine ⟨load_configuration_eq_find, by rfl, by rfl, by rfl, ?_⟩
  intro debug
  cases debug <;> rfl

/-- C1 witness: the scenario identifier resolves to CONF11. -/
theorem load_configuration_spec_witness :
    load_configuration CONFIGURATIONS "16S6EMS1.111" false =
      .ok (true, some CONF11) :=
  load_configuration_spec.2.1

/-- C2: for every feature attribute the visibility decision depends only on
the gating address in the active profile: the attribute is hidden (mode 0)
exactly when that address is the `Unsupported` sentinel (or its normal mode
is already 0); any other address value, the `Unknown` sentinel included,
keeps the attribute exposed with its normal mode. -/
theorem msi_ec_is_visible_spec :
    ∀ (c : Conf) (a : MsiAttr) (mode : Nat),
      (msi_ec_is_visible c a mode = 0 ∨ msi_ec_is_visible c a mode = mode)
      ∧ (msi_ec_is_visible c a mode = 0 ↔
          attr_gate_address c a = some Addr.unsupp ∨ mode = 0)
      ∧ (attr_gate_address c a = some Addr.unknown →
          msi_ec_is_visible c a mode = mode) := by
  intro c a mode
  cases h : attr_gate_address c a with
  | none => simp [msi_ec_is_visible, h]
  | some ad =>
      cases ad with
      | addr v => simp [msi_ec_is_visible, h]
      | unknown => simp [msi_ec_is_visible, h]
      | unsupp => simp [msi_ec_is_visible, h]

/-- C2 witness: on CONF0 the super-battery feature has the `Unknown` address
and is not hidden. -/
theorem msi_ec_is_visible_spec_witness :
    attr_gate_address CONF0 MsiAttr.super_battery = some Addr.unknown ∧
    msi_ec_is_visible CONF0 MsiAttr.super_battery 420 = 420 :=
  ⟨by decide, (msi_ec_is_visible_spec CONF0 MsiAttr.super_battery 420).2.2 (by decide)⟩

/-- C3: for every charge-control threshold attribute of every catalog
profile, decoding a stored raw byte yields raw minus the offset, except that
`0x80` decodes to 0; re-encoding the decoded value writes back exactly the
same raw byte for every raw in `[range_min, range_max]`; and on CONF0
(offsets 0x8a/0x80, range 0x8a..0xe4) storing 10 writes 0x94, reading 0x94
reports 10, and storing 200 is rejected with -EINVAL and no write. -/
theorem charge_control_threshold_roundtrip :
    (∀ c ∈ CONFIGURATIONS,
      ∀ offset,
        offset = c.charge_control.offset_start ∨
          offset = c.charge_control.offset_end →
        charge_control_threshold_show c offset (memRead fun _ => 0x80) = .ok 0
        ∧ ∀ raw, c.charge_control.range_min ≤ raw →
            raw ≤ c.charge_control.range_max →
            charge_control_threshold_show c offset (memRead fun _ => raw) =
              .ok ((raw : Int) - (offset : Int))
            ∧ charge_control_threshold_store c offset
                ((raw : Int) - (offset : Int)).toNat = .ok raw)
    ∧ charge_control_threshold_store CONF0 CONF0.charge_control.offset_start 10 =
        .ok 0x94
    ∧ charge_control_threshold_show CONF0 CONF0.charge_control.offset_start
        (memRead fun _ => 0x94) = .ok 10
    ∧ charge_control_threshold_store CONF0 CONF0.charge_control.offset_start 200 =
        .error (-EINVAL) := by
  refine ⟨?_, by rfl, by rfl, by rfl⟩
  intro c hc offset hoff
  obtain ⟨hs, he, hmin, hmm, hmax⟩ := cc_catalog_bounds c hc
  have hoffle : offset ≤ c.charge_control.range_min := by
    rcases hoff with rfl | rfl
    · exact hs
    · exact he
  refine ⟨by simp [charge_control_threshold_show, memRead], ?_⟩
  intro raw h1 h2
  have h80 : raw ≠ 0x80 := by omega
  have htn : ((raw : Int) - (offset : Int)).toNat = raw - offset := by omega
  exact ⟨threshold_show_of_ne c offset raw h80,
    htn ▸ threshold_store_roundtrip c offset raw hoffle hmax h1 h2⟩

/-- C3 witness: the roundtrip at CONF0 and raw byte 0xa0. -/
theorem charge_control_threshold_roundtrip_witness :
    charge_control_threshold_store CONF0 CONF0.charge_control.offset_start
      (((0xa0 : Nat) : Int) - (CONF0.charge_control.offset_start : Int)).toNat =
      .ok 0xa0 :=
  ((charge_control_threshold_roundtrip.1 CONF0 (by decide)
      CONF0.charge_control.offset_start (Or.inl rfl)).2 0xa0
      (by decide) (by decide)).2

/-- C10: the threshold store computes requested-plus-offset modulo 256, and
for every 8-bit input it either returns -EINVAL without writing or writes a
byte inside `[range_min, range_max]`; with the catalog offsets every sum
that wraps past 255 lands below `range_min` and is rejected. -/
theorem charge_control_store_wrap_safe :
    ∀ c ∈ CONFIGURATIONS,
      ∀ offset,
        offset = c.charge_control.offset_start ∨
          offset = c.charge_control.offset_end →
        ∀ p, p ≤ 255 →
          (charge_control_threshold_store c offset p = .error (-EINVAL)
            ∨ ∃ w, charge_control_threshold_store c offset p = .ok w
                ∧ c.charge_control.range_min ≤ w
                ∧ w ≤ c.charge_control.range_max)
          ∧ (256 ≤ p + offset →
              charge_control_threshold_store c offset p = .error (-EINVAL)) := by
  intro c hc offset hoff p hp
  obtain ⟨hs, he, hmin, hmm, hmax⟩ := cc_catalog_bounds c hc
  have hoffle : offset ≤ c.charge_control.range_min := by
    rcases hoff with rfl | rfl
    · exact hs
    · exact he
  constructor
  · by_cases hcond : (p + offset) % 256 < c.charge_control.range_min ∨
        c.charge_control.range_max < (p + offset) % 256
    · left
      simp only [charge_control_threshold_store,
        if_neg (by omega : ¬ 255 < p), if_pos hcond]
    · right
      refine ⟨(p + offset) % 256, ?_, by omega, by omega⟩
      simp only [charge_control_threshold_store,
        if_neg (by omega : ¬ 255 < p), if_neg hcond]
  · intro hwrap
    have hcond : (p + offset) % 256 < c.charge_control.range_min := by omega
    simp only [charge_control_threshold_store,
      if_neg (by omega : ¬ 255 < p), if_pos (Or.inl hcond)]

/-- C10 witness: storing 255 through the start threshold of CONF0 wraps and
is rejected. -/
theorem charge_control_store_wrap_safe_witness :
    charge_control_threshold_store CONF0 CONF0.charge_control.offset_start 255 =
      .error (-EINVAL) :=
  (charge_control_store_wrap_safe CONF0 (by decide)
      CONF0.charge_control.offset_start (Or.inl rfl) 255 (by decide)).2 (by decide)

lemma rescale_round_le (d p : Nat) (hd : 0 < d) :
    100 * (p * d / 100) / d ≤ p := by
  have h1 : 100 * (p * d / 100) ≤ p * d := by
    have := Nat.div_mul_le_self (p * d) 100
    omega
  calc 100 * (p * d / 100) / d ≤ p * d / d := Nat.div_le_div_right h1
    _ = p := Nat.mul_div_cancel p hd

lemma rescale_round_eq_iff (d p : Nat) (hd : 0 < d) :
    100 * (p * d / 100) / d = p ↔ 100 ∣ p * d := by
  constructor
  · intro heq
    have hle : p ≤ 100 * (p * d / 100) / d := heq.ge
    have h2 : p * d ≤ 100 * (p * d / 100) :=
      (Nat.le_div_iff_mul_le hd).mp hle
    have h1 : 100 * (p * d / 100) ≤ p * d := by
      have := Nat.div_mul_le_self (p * d) 100
      omega
    exact ⟨p * d / 100, by omega⟩
  · rintro ⟨k, hk⟩
    have hq : p * d / 100 = k := by
      rw [hk]
      exact Nat.mul_div_cancel_left k (by norm_num)
    rw [hq, ← hk]
    exact Nat.mul_div_cancel p hd

/-- C4 counterexample: on CONF0 (basic fan-speed range 0x00..0x0f) storing
the percentage 1 writes the raw byte 0, which reads back as 0, not 1 — the
claimed decode-encode roundtrip fails on the code. -/
theorem cpu_basic_fan_speed_counterexample :
    cpu_basic_fan_speed_store CONF0 1 = .ok 0
    ∧ cpu_basic_fan_speed_show CONF0 0 = .ok 0
    ∧ (Except.ok 0 : Except Int Nat) ≠ .ok 1 := by
  refine ⟨by rfl, by rfl, by simp⟩

/-- C4 amended: storing a percentage p in [0,100] always writes a raw byte
inside `[base_min, base_max]`, and reading it back yields a percentage at
most p, with equality exactly when 100 divides p times the span
`base_max - base_min` (so with the configured span 15 the roundtrip holds
only at multiples of 20); storing p above 100 is rejected with -EINVAL before
any write, and a raw byte outside `[base_min, base_max]` is a read fault
(-EINVAL), not a clamped value. -/
theorem cpu_basic_fan_speed_codec_amended :
    ∀ (c : Conf),
      c.cpu.bs_fan_speed_base_min < c.cpu.bs_fan_speed_base_max →
      (∀ p, p ≤ 100 →
        ∃ w, cpu_basic_fan_speed_store c p = .ok w
          ∧ c.cpu.bs_fan_speed_base_min ≤ w
          ∧ w ≤ c.cpu.bs_fan_speed_base_max
          ∧ ∃ q, cpu_basic_fan_speed_show c w = .ok q
              ∧ q ≤ p
              ∧ (q = p ↔
                  100 ∣ p * (c.cpu.bs_fan_speed_base_max -
                    c.cpu.bs_fan_speed_base_min)))
      ∧ (∀ p, 100 < p → p ≤ 255 →
          cpu_basic_fan_speed_store c p = .error (-EINVAL))
      ∧ (∀ raw, raw < c.cpu.bs_fan_speed_base_min ∨
            c.cpu.bs_fan_speed_base_max < raw →
          cpu_basic_fan_speed_show c raw = .error (-EINVAL)) := by
  intro c hlt
  set mn := c.cpu.bs_fan_speed_base_min with hmn
  set mx := c.cpu.bs_fan_speed_base_max with hmx
  have hd : 0 < mx - mn := by omega
  refine ⟨?_, ?_, ?_⟩
  · intro p hp
    have henc : (p * (mx - mn) + 100 * mn) / 100 = p * (mx - mn) / 100 + mn := by
      rw [Nat.mul_comm 100 mn, Nat.add_mul_div_right _ _ (by norm_num : 0 < 100)]
    have hqd : p * (mx - mn) / 100 ≤ mx - mn := by
      have h1 : p * (mx - mn) ≤ 100 * (mx - mn) :=
        Nat.mul_le_mul_right _ hp
      calc p * (mx - mn) / 100 ≤ 100 * (mx - mn) / 100 :=
            Nat.div_le_div_right h1
        _ = mx - mn := Nat.mul_div_cancel_left _ (by norm_num)
    refine ⟨p * (mx - mn) / 100 + mn, ?_, by omega, by omega, ?_⟩
    · simp only [cpu_basic_fan_speed_store, ← hmn, ← hmx]
      rw [if_neg (by omega : ¬ 255 < p), if_neg (by omega : ¬ 100 < p), henc]
    · refine ⟨100 * (p * (mx - mn) / 100) / (mx - mn), ?_, ?_, ?_⟩
      · simp only [cpu_basic_fan_speed_show, ← hmn, ← hmx]
        rw [if_neg (by omega :
          ¬ (p * (mx - mn) / 100 + mn < mn ∨ mx < p * (mx - mn) / 100 + mn)),
          Nat.add_sub_cancel]
      · exact rescale_round_le _ _ hd
      · exact rescale_round_eq_iff _ _ hd
  · intro p h1 h2
    simp only [cpu_basic_fan_speed_store]
    rw [if_neg (by omega : ¬ 255 < p), if_pos h1]
  · intro raw hout
    simp only [cpu_basic_fan_speed_show, ← hmn, ← hmx]
    rw [if_pos hout]

/-- C4 witness: on CONF0 (span 15) the percentage 20 roundtrips exactly. -/
theorem cpu_basic_fan_speed_codec_amended_witness :
    CONF0.cpu.bs_fan_speed_base_min < CONF0.cpu.bs_fan_speed_base_max
    ∧ ∃ w, cpu_basic_fan_speed_store CONF0 20 = .ok w
        ∧ CONF0.cpu.bs_fan_speed_base_min ≤ w
        ∧ w ≤ CONF0.cpu.bs_fan_speed_base_max
        ∧ ∃ q, cpu_basic_fan_speed_show CONF0 w = .ok q
            ∧ q ≤ 20
            ∧ (q = 20 ↔
                100 ∣ 20 * (CONF0.cpu.bs_fan_speed_base_max -
                  CONF0.cpu.bs_fan_speed_base_min)) :=
  ⟨by decide,
    (cpu_basic_fan_speed_codec_amended CONF0 (by decide)).1 20 (by decide)⟩

/-- C5 counterexample: on CONF0 the fan-mode show reports the raw byte 0x80
as "unknown (128)", not as the explicit "unspecified" result — the sentinel
rule does not apply to every mode-table show operation. -/
theorem fan_mode_sentinel_counterexample :
    fan_mode_show CONF0 0x80 = ModeShow.unknown 0x80
    ∧ fan_mode_show CONF0 0x80 ≠ ModeShow.unspecified := by
  refine ⟨by rfl, by decide⟩

/-- C5 amended: the raw byte 0x80 decodes to "unspecified" in the shift-mode
show of every profile (the check precedes the table scan), but the fan-mode
show has no such sentinel: it never yields "unspecified"; 0x80 goes through
the table, decoding to "unknown (128)" on profiles that do not list it and
to a mode name on the one profile (CONF38) whose fan table maps 0x80. -/
theorem mode_sentinel_amended :
    (∀ (c : Conf), shift_mode_show c 0x80 = ModeShow.unspecified)
    ∧ (∀ (c : Conf) (raw : Nat), fan_mode_show c raw ≠ ModeShow.unspecified)
    ∧ fan_mode_show CONF38 0x80 = ModeShow.mode "advanced" := by
  refine ⟨fun c => rfl, fun c raw => ?_, by rfl⟩
  unfold fan_mode_show
  cases h : scanModes c.fan_mode.modes raw <;> simp

/-- C5 witness: the one fan table that does list 0x80 decodes it through the
table, not through a sentinel. -/
theorem mode_sentinel_amended_witness :
    fan_mode_show CONF38 0x80 = ModeShow.mode "advanced" :=
  mode_sentinel_amended.2.2

/-- C6 counterexample: in CONF22's shift-mode table the names "comfort" and
"sport" share the raw value 0xc1, so the linear scan decodes the raw value
registered for "sport" to "comfort" — decode(raw_of(name)) == name fails. -/
theorem mode_table_counterexample :
    ("sport", 0xc1) ∈ CONF22.shift_mode.modes
    ∧ shift_mode_show CONF22 0xc1 = ModeShow.mode "comfort"
    ∧ ModeShow.mode "comfort" ≠ ModeShow.mode "sport" := by
  refine ⟨by decide, by rfl, by decide⟩

/-- C6 amended: decoding the byte registered for a declared name returns
that name provided no earlier entry shares the raw value (CONF22's shift
table maps both "comfort" and "sport" to 0xc1, so "sport" decodes to
"comfort") and, for shift tables, the value is not the 0x80 sentinel;
decoding a byte absent from the table yields "unknown (raw)" and never an
error, except that the absent byte 0x80 yields "unspecified" in a shift
table; storing a name not in the table returns -EINVAL with no write. -/
theorem mode_table_codec_amended :
    (∀ (c : Conf) (nm : String) (v : Nat),
        (nm, v) ∈ c.shift_mode.modes →
        (∀ p ∈ c.shift_mode.modes, p.2 = v → p.1 = nm) →
        v ≠ 0x80 →
        shift_mode_show c v = ModeShow.mode nm)
    ∧ (∀ (c : Conf) (nm : String) (v : Nat),
        (nm, v) ∈ c.fan_mode.modes →
        (∀ p ∈ c.fan_mode.modes, p.2 = v → p.1 = nm) →
        fan_mode_show c v = ModeShow.mode nm)
    ∧ (∀ (c : Conf) (x : Nat), (∀ p ∈ c.shift_mode.modes, p.2 ≠ x) →
        x ≠ 0x80 →
        shift_mode_show c x = ModeShow.unknown x)
    ∧ (∀ (c : Conf) (x : Nat), (∀ p ∈ c.fan_mode.modes, p.2 ≠ x) →
        fan_mode_show c x = ModeShow.unknown x)
    ∧ (∀ (modes : List (String × Nat)) (buf : String),
        (∀ p ∈ modes, sysfs_streq p.1 buf = false) →
        mode_store modes buf = .error (-EINVAL)) := by
  refine ⟨?_, ?_, ?_, ?_, mode_store_no_match⟩
  · intro c nm v hmem huniq hv
    unfold shift_mode_show
    rw [if_neg hv, scanModes_eq_some _ _ _ hmem huniq]
  · intro c nm v hmem huniq
    unfold fan_mode_show
    rw [scanModes_eq_some _ _ _ hmem huniq]
  · intro c x hx h80
    unfold shift_mode_show
    rw [if_neg h80, scanModes_eq_none _ _ hx]
  · intro c x hx
    unfold fan_mode_show
    rw [scanModes_eq_none _ _ hx]

/-- C7: storing a side through fn_key or win_key and reading back through
either attribute is consistent for every profile and register state,
independent of the invert flag (the same XOR is applied on both paths):
after storing "right" via fn_key, fn_key shows "right" and win_key shows
"left", and symmetrically for every other store; the two attributes are
mutually inverse views of the single fn_win_swap bit; and for a plain bit
feature, reading the bit after `ec_set_bit` returns the stored boolean. -/
theorem fn_win_key_roundtrip :
    ∀ (c : Conf) (mem : Mem) (junk : Bool), c.fn_win_swap.bit < 8 →
      (fn_key_show c (memRead (fn_key_store c mem "right").1) junk = .ok "right"
      ∧ fn_key_show c (memRead (fn_key_store c mem "left").1) junk = .ok "left"
      ∧ win_key_show c (memRead (fn_key_store c mem "right").1) junk = .ok "left"
      ∧ win_key_show c (memRead (fn_key_store c mem "left").1) junk = .ok "right"
      ∧ fn_key_show c (memRead (win_key_store c mem "right").1) junk = .ok "left"
      ∧ win_key_show c (memRead (win_key_store c mem "right").1) junk = .ok "right"
      ∧ fn_key_show c (memRead (win_key_store c mem "left").1) junk = .ok "right"
      ∧ win_key_show c (memRead (win_key_store c mem "left").1) junk = .ok "left")
      ∧ (fn_key_show c (memRead mem) junk = .ok "right" ↔
          win_key_show c (memRead mem) junk = .ok "left")
      ∧ (∀ (a : Addr) (bit : Nat) (v : Bool), bit < 8 →
          (ec_set_bit mem a bit v a).testBit bit = v) := by
  intro c mem junk h8
  have hsetbit : ∀ (m : Mem) (a : Addr) (bit : Nat) (v : Bool), bit < 8 →
      (ec_set_bit m a bit v a).testBit bit = v := by
    intro m a bit v hb
    simp only [ec_set_bit]
    rw [if_pos trivial]
    exact applyBit_testBit_self _ _ _ hb
  have hset : ∀ v : Bool,
      ((ec_set_bit mem c.fn_win_swap.address c.fn_win_swap.bit v)
        c.fn_win_swap.address).testBit c.fn_win_swap.bit = v :=
    fun v => hsetbit mem _ _ v h8
  have hshow_fn : ∀ (m : Mem), fn_key_show c (memRead m) junk =
      (if Bool.xor ((m c.fn_win_swap.address).testBit c.fn_win_swap.bit)
          c.fn_win_swap.invert then .ok "right" else .ok "left") :=
    fun m => rfl
  have hshow_win : ∀ (m : Mem), win_key_show c (memRead m) junk =
      (if Bool.xor ((m c.fn_win_swap.address).testBit c.fn_win_swap.bit)
          c.fn_win_swap.invert then .ok "left" else .ok "right") :=
    fun m => rfl
  have hfr : (fn_key_store c mem "right").1 =
      ec_set_bit mem c.fn_win_swap.address c.fn_win_swap.bit
        (Bool.xor true c.fn_win_swap.invert) := rfl
  have hfl : (fn_key_store c mem "left").1 =
      ec_set_bit mem c.fn_win_swap.address c.fn_win_swap.bit
        (Bool.xor false c.fn_win_swap.invert) := rfl
  have hwr : (win_key_store c mem "right").1 =
      ec_set_bit mem c.fn_win_swap.address c.fn_win_swap.bit
        (Bool.xor false c.fn_win_swap.invert) := rfl
  have hwl : (win_key_store c mem "left").1 =
      ec_set_bit mem c.fn_win_swap.address c.fn_win_swap.bit
        (Bool.xor true c.fn_win_swap.invert) := rfl
  refine ⟨⟨?_, ?_, ?_, ?_, ?_, ?_, ?_, ?_⟩, ?_, hsetbit mem⟩
  · rw [hfr, hshow_fn, hset]
    cases c.fn_win_swap.invert <;> rfl
  · rw [hfl, hshow_fn, hset]
    cases c.fn_win_swap.invert <;> rfl
  · rw [hfr, hshow_win, hset]
    cases c.fn_win_swap.invert <;> rfl
  · rw [hfl, hshow_win, hset]
    cases c.fn_win_swap.invert <;> rfl
  · rw [hwr, hshow_fn, hset]
    cases c.fn_win_swap.invert <;> rfl
  · rw [hwr, hshow_win, hset]
    cases c.fn_win_swap.invert <;> rfl
  · rw [hwl, hshow_fn, hset]
    cases c.fn_win_swap.invert <;> rfl
  · rw [hwl, hshow_win, hset]
    cases c.fn_win_swap.invert <;> rfl
  · rw [hshow_fn, hshow_win]
    cases Bool.xor ((mem c.fn_win_swap.address).testBit c.fn_win_swap.bit)
        c.fn_win_swap.invert <;> simp

/-- C7 witness: the roundtrip on CONF0 starting from the all-zero register
file. -/
theorem fn_win_key_roundtrip_witness :
    CONF0.fn_win_swap.bit < 8 ∧
    fn_key_show CONF0 (memRead (fn_key_store CONF0 (fun _ => 0) "right").1)
      false = .ok "right" :=
  ⟨by decide, (fn_win_key_roundtrip CONF0 (fun _ => 0) false (by decide)).1.1⟩

/-- C8: contrary to the claim, the shows cited for it do not propagate read
errors: `cooler_boost_show`, `fn_key_show`, `win_key_show` and
`super_battery_show` ignore the result of `ec_check_bit` /
`ec_check_by_mask`, so when every EC read fails they still succeed, emitting
a value derived from the indeterminate (uninitialized) stack boolean; a show
that does check its read, such as `charge_control_threshold_show`, does
propagate the error. -/
theorem show_ignores_read_errors :
    ∀ (e : Int) (junk : Bool),
      cooler_boost_show CONF0 (fun _ => .error e) junk =
        .ok (if junk then "on" else "off")
      ∧ fn_key_show CONF0 (fun _ => .error e) junk =
        .ok (if junk then "right" else "left")
      ∧ win_key_show CONF0 (fun _ => .error e) junk =
        .ok (if junk then "left" else "right")
      ∧ super_battery_show CONF0 (fun _ => .error e) junk =
        .ok (if junk then "on" else "off")
      ∧ charge_control_threshold_show CONF0 CONF0.charge_control.offset_start
          (fun _ => .error e) = .error e := by
  intro e junk
  cases junk <;> exact ⟨rfl, rfl, rfl, rfl, rfl⟩

/-- C8 witness: with every EC read failing with -EIO (-5), the cooler-boost
show still succeeds and reports "off". -/
theorem show_ignores_read_errors_witness :
    cooler_boost_show CONF0 (fun _ => .error (-5)) false = .ok "off" :=
  (show_ignores_read_errors (-5) false).1

lemma cinv_init {n : Nat} (bits : Fin n → Nat) (vals : Fin n → Bool)
    (m0 : Nat) : CInv bits vals m0 (initCState n m0) := by
  unfold CInv initCState
  refine ⟨fun t => Or.inl rfl, ?_, ?_, fun i _ _ => rfl⟩
  · intro t h
    simp at h
  · intro t h
    simp at h

lemma cinv_step {n : Nat} (bits : Fin n → Nat) (vals : Fin n → Bool)
    (m0 : Nat) (hbits : ∀ t, bits t < 8) (hinj : Function.Injective bits)
    (s : CState n) (hs : CInv bits vals m0 s) (t : Fin n) :
    CInv bits vals m0 (stepT bits vals s t) := by
  obtain ⟨hlock, hreg, hdone, hfresh⟩ := hs
  have hlockt : s.pc t ≠ 0 → s.pc t ≠ 4 → s.lock = some t := by
    intro hne0 hne4
    cases hl : s.lock with
    | none =>
        rw [hl] at hlock
        rcases hlock t with h | h
        · exact absurd h hne0
        · exact absurd h hne4
    | some u =>
        rw [hl] at hlock
        obtain ⟨hu, hothers⟩ := hlock
        by_cases ht : t = u
        · rw [ht]
        · rcases hothers t ht with h | h
          · exact absurd h hne0
          · exact absurd h hne4
  by_cases h0 : s.pc t = 0
  · -- acquire (or block while another thread holds the mutex)
    cases hl : s.lock with
    | some u =>
        have hid : stepT bits vals s t = s := by
          simp only [stepT, if_pos h0, hl]
        rw [hid]
        exact ⟨hlock, hreg, hdone, hfresh⟩
    | none =>
        rw [hl] at hlock
        have hstep : stepT bits vals s t =
            { s with lock := some t, pc := Function.update s.pc t 1 } := by
          simp only [stepT, if_pos h0, hl]
        rw [hstep]
        unfold CInv
        dsimp only
        refine ⟨⟨Or.inl (Function.update_same t 1 s.pc), ?_⟩, ?_, ?_, ?_⟩
        · intro v hv
          rw [Function.update_noteq hv]
          exact hlock v
        · intro v hv
          by_cases hvt : v = t
          · subst hvt
            rw [Function.update_same] at hv
            omega
          · rw [Function.update_noteq hvt] at hv
            exact hreg v hv
        · intro v hv
          by_cases hvt : v = t
          · subst hvt
            rw [Function.update_same] at hv
            omega
          · rw [Function.update_noteq hvt] at hv
            exact hdone v hv
        · intro i hi hall
          refine hfresh i hi ?_
          intro v hb
          by_cases hvt : v = t
          · subst hvt
            omega
          · have := hall v hb
            rwa [Function.update_noteq hvt] at this
  · by_cases h1 : s.pc t = 1
    · -- read the register under the lock
      have hl : s.lock = some t := hlockt h0 (by omega)
      rw [hl] at hlock
      obtain ⟨-, hothers⟩ := hlock
      have hstep : stepT bits vals s t =
          { mem := s.mem, lock := some t, reg := Function.update s.reg t s.mem,
            pc := Function.update s.pc t 2 } := by
        simp only [stepT, if_neg h0, if_pos h1, hl]
      rw [hstep]
      unfold CInv
      dsimp only
      refine ⟨⟨Or.inr (Or.inl (Function.update_same t 2 s.pc)), ?_⟩, ?_, ?_, ?_⟩
      · intro v hv
        rw [Function.update_noteq hv]
        exact hothers v hv
      · intro v hv
        by_cases hvt : v = t
        · subst hvt
          rw [Function.update_same]
        · rw [Function.update_noteq hvt] at hv
          rcases hothers v hvt with h | h <;> omega
      · intro v hv
        by_cases hvt : v = t
        · subst hvt
          rw [Function.update_same] at hv
          omega
        · rw [Function.update_noteq hvt] at hv
          exact hdone v hv
      · intro i hi hall
        refine hfresh i hi ?_
        intro v hb
        by_cases hvt : v = t
        · subst hvt
          omega
        · have := hall v hb
          rwa [Function.update_noteq hvt] at this
    · by_cases h2 : s.pc t = 2
      · -- write the modified byte back under the lock
        have hl : s.lock = some t := hlockt h0 (by omega)
        rw [hl] at hlock
        obtain ⟨-, hothers⟩ := hlock
        have hregt : s.reg t = s.mem := hreg t h2
        have hstep : stepT bits vals s t =
            { mem := applyBit s.mem (bits t) (vals t), lock := some t,
              reg := s.reg, pc := Function.update s.pc t 3 } := by
          simp only [stepT, if_neg h0, if_neg h1, if_pos h2, hregt, hl]
        rw [hstep]
        unfold CInv
        dsimp only
        refine ⟨⟨Or.inr (Or.inr (Function.update_same t 3 s.pc)), ?_⟩, ?_, ?_, ?_⟩
        · intro v hv
          rw [Function.update_noteq hv]
          exact hothers v hv
        · intro v hv
          by_cases hvt : v = t
          · subst hvt
            rw [Function.update_same] at hv
            omega
          · rw [Function.update_noteq hvt] at hv
            rcases hothers v hvt with h | h <;> omega
        · intro v hv
          by_cases hvt : v = t
          · subst hvt
            exact applyBit_testBit_self _ _ _ (hbits v)
          · rw [Function.update_noteq hvt] at hv
            have hne : bits v ≠ bits t := fun h => hvt (hinj h)
            rw [applyBit_testBit_of_ne _ _ _ _ (hbits v) hne]
            exact hdone v hv
        · intro i hi hall
          have hbt : bits t ≠ i := by
            intro hb
            have := hall t hb
            rw [Function.update_same] at this
            omega
          rw [applyBit_testBit_of_ne _ _ _ _ hi (Ne.symm hbt)]
          refine hfresh i hi ?_
          intro v hb
          by_cases hvt : v = t
          · subst hvt
            exact absurd hb hbt
          · have := hall v hb
            rwa [Function.update_noteq hvt] at this
      · by_cases h3 : s.pc t = 3
        · -- release the mutex
          have hl : s.lock = some t := hlockt h0 (by omega)
          rw [hl] at hlock
          obtain ⟨-, hothers⟩ := hlock
          have hstep : stepT bits vals s t =
              { s with lock := none, pc := Function.update s.pc t 4 } := by
            simp only [stepT, if_neg h0, if_neg h1, if_neg h2, if_pos h3]
          rw [hstep]
          unfold CInv
          dsimp only
          refine ⟨?_, ?_, ?_, ?_⟩
          · intro v
            by_cases hvt : v = t
            · subst hvt
              rw [Function.update_same]
              exact Or.inr rfl
            · rw [Function.update_noteq hvt]
              exact hothers v hvt
          · intro v hv
            by_cases hvt : v = t
            · subst hvt
              rw [Function.update_same] at hv
              omega
            · rw [Function.update_noteq hvt] at hv
              rcases hothers v hvt with h | h <;> omega
          · intro v hv
            by_cases hvt : v = t
            · subst hvt
              exact hdone v (by omega)
            · rw [Function.update_noteq hvt] at hv
              exact hdone v hv
          · intro i hi hall
            have hbt : bits t ≠ i := by
              intro hb
              have := hall t hb
              rw [Function.update_same] at this
              omega
            refine hfresh i hi ?_
            intro v hb
            by_cases hvt : v = t
            · subst hvt
              exact absurd hb hbt
            · have := hall v hb
              rwa [Function.update_noteq hvt] at this
        · -- already done: no state change
          have hid : stepT bits vals s t = s := by
            simp only [stepT, if_neg h0, if_neg h1, if_neg h2, if_neg h3]
          rw [hid]
          exact ⟨hlock, hreg, hdone, hfresh⟩

lemma cinv_run {n : Nat} (bits : Fin n → Nat) (vals : Fin n → Bool)
    (m0 : Nat) (hbits : ∀ t, bits t < 8) (hinj : Function.Injective bits) :
    ∀ (sched : List (Fin n)) (s : CState n), CInv bits vals m0 s →
      CInv bits vals m0 (sched.foldl (stepT bits vals) s) := by
  intro sched
  induction sched with
  | nil => intro s hs; exact hs
  | cons t rest ih =>
      intro s hs
      exact ih _ (cinv_step bits vals m0 hbits hinj s hs t)

/-- C9: for any number of concurrent `ec_set_bit` calls targeting pairwise
distinct bits of the same register, under every interleaving that runs all
of them to completion the final register value carries every caller's
intended bit value — no update is lost — and every untouched bit keeps its
initial value, because the read-modify-write sections are serialized by
`ec_set_bit_mutex`. -/
theorem ec_set_bit_no_lost_updates :
    ∀ (n : Nat) (bits : Fin n → Nat) (vals : Fin n → Bool) (m0 : Nat)
      (sched : List (Fin n)),
      (∀ t, bits t < 8) → Function.Injective bits →
      (∀ t, (runSched bits vals m0 sched).pc t = 4) →
      (∀ t, (runSched bits vals m0 sched).mem.testBit (bits t) = vals t)
      ∧ (∀ i, i < 8 → (∀ t, bits t ≠ i) →
          (runSched bits vals m0 sched).mem.testBit i = m0.testBit i) := by
  intro n bits vals m0 sched hbits hinj hterm
  have hinv : CInv bits vals m0 (runSched bits vals m0 sched) :=
    cinv_run bits vals m0 hbits hinj sched _ (cinv_init bits vals m0)
  obtain ⟨-, -, hdone, hfresh⟩ := hinv
  constructor
  · intro t
    exact hdone t (by rw [hterm t]; omega)
  · intro i hi hni
    exact hfresh i hi fun t hb => absurd hb (hni t)

/-- C9 witness: two threads setting bit 0 and clearing bit 1 of the same
register, interleaved so the second thread repeatedly blocks on the mutex
while the first holds it; both updates survive. -/
theorem ec_set_bit_no_lost_updates_witness :
    (∀ t : Fin 2, (![0, 1] : Fin 2 → Nat) t < 8)
    ∧ Function.Injective (![0, 1] : Fin 2 → Nat)
    ∧ (∀ t, (runSched ![0, 1] ![true, false] 2
        [0, 1, 0, 1, 0, 1, 0, 1, 1, 1, 1]).pc t = 4)
    ∧ (∀ t, (runSched ![0, 1] ![true, false] 2
        [0, 1, 0, 1, 0, 1, 0, 1, 1, 1, 1]).mem.testBit ((![0, 1] : Fin 2 → Nat) t) =
        (![true, false] : Fin 2 → Bool) t) :=
  ⟨by decide, by decide, by decide,
    (ec_set_bit_no_lost_updates 2 ![0, 1] ![true, false] 2
      [0, 1, 0, 1, 0, 1, 0, 1, 1, 1, 1] (by decide) (by decide) (by decide)).1⟩

/-- C6 witness: concrete decodes and a rejected store on CONF0. -/
theorem mode_table_codec_amended_witness :
    shift_mode_show CONF0 0xc2 = ModeShow.mode "eco"
    ∧ fan_mode_show CONF0 0x0d = ModeShow.mode "auto"
    ∧ shift_mode_show CONF0 0x33 = ModeShow.unknown 0x33
    ∧ fan_mode_show CONF0 0x80 = ModeShow.unknown 0x80
    ∧ mode_store CONF0.shift_mode.modes "performance" = .error (-EINVAL) :=
  ⟨mode_table_codec_amended.1 CONF0 "eco" 0xc2 (by decide) (by decide) (by decide),
    mode_table_codec_amended.2.1 CONF0 "auto" 0x0d (by decide) (by decide),
    mode_table_codec_amended.2.2.1 CONF0 0x33 (by decide) (by decide),
    mode_table_codec_amended.2.2.2.1 CONF0 0x80 (by decide),
    mode_table_codec_amended.2.2.2.2 CONF0.shift_mode.modes "performance"
      (by decide)⟩

end MsiEc
